import Mathlib

/-!
Verification of the double-top pattern detection engine of `perpscreener`.

The Rust sources are shallowly embedded:
* `src/business_logic/indicators.rs` — `AtrCalculator`, `SwingDetector`;
* `src/business_logic/double_top.rs` — `DoubleTopDetector` state machine;
* `src/services/monitor.rs` — the per-cycle monitoring coordinator.

Prices (`f64` in Rust) are modelled as `ℚ`; `usize`/`u64` counters and
epoch-millisecond times as `ℕ` (with Rust's truncating unsigned subtraction).
Fallible code (a Rust panic, e.g. `Vec::remove(0)` on an empty vector) is
modelled with `Except String`.  Logging (`tracing::…`) is a side effect with no
bearing on state and is dropped.
-/

set_option linter.unusedVariables false

/-- Candle data (src/models/candle.rs and src/services/hyperliquid.rs share the
same shape; fields never read by the detection core — open price, volume,
trade count, interval, symbol — are omitted). -/
structure Candle where
  open_time : ℕ
  close_time : ℕ
  high : ℚ
  low : ℚ
  close : ℚ
deriving DecidableEq, Repr

/-- Helper mirroring the repository's test helper `make_candle(high, low, close)`
(times zero). -/
def mkCandle (high low close : ℚ) : Candle :=
  { open_time := 0, close_time := 0, high := high, low := low, close := close }

/-! ### AtrCalculator (src/business_logic/indicators.rs, lines 4–55) -/

/-- State of `AtrCalculator`. -/
structure AtrCalculator where
  period : ℕ
  values : List ℚ
  prev_close : Option ℚ
deriving DecidableEq, Repr

namespace AtrCalculator

/-- `AtrCalculator::new` — no validation of `period` is performed. -/
def new (period : ℕ) : AtrCalculator :=
  { period := period, values := [], prev_close := none }

/-- `AtrCalculator::true_range`: `max(high - low, |high - prev_close|,
|low - prev_close|)`, degenerating to `high - low` when no previous close is
held. -/
def true_range (a : AtrCalculator) (c : Candle) : ℚ :=
  let hl := c.high - c.low
  match a.prev_close with
  | some pc => max (max hl |c.high - pc|) |c.low - pc|
  | none => hl

/-- `AtrCalculator::update`.  The `else` branch of the Rust code executes
`self.values.remove(0)`, which panics when `values` is empty (reachable exactly
when `period = 0`); that panic is modelled as `Except.error`.  The cast
`(self.period - 1) as f64` is modelled as `(period : ℚ) - 1`, identical for
every `period ≥ 1` (for `period = 0` the branch errors before the value is
observable). -/
def update (a : AtrCalculator) (c : Candle) : Except String (AtrCalculator × Option ℚ) :=
  let tr := a.true_range c
  let pc : Option ℚ := some c.close
  if a.values.length < a.period then
    let vs := a.values ++ [tr]
    if vs.length = a.period then
      .ok (⟨a.period, vs, pc⟩, some (vs.sum / (a.period : ℚ)))
    else
      .ok (⟨a.period, vs, pc⟩, none)
  else
    let prev_atr := a.values.sum / (a.period : ℚ)
    let new_atr := (prev_atr * ((a.period : ℚ) - 1) + tr) / (a.period : ℚ)
    match a.values with
    | [] => .error "index out of bounds: Vec::remove(0) on empty values"
    | _ :: rest => .ok (⟨a.period, rest ++ [tr], pc⟩, some new_atr)

/-- Run `update` over a list of candles, collecting the per-update outputs. -/
def run (a : AtrCalculator) : List Candle → Except String (AtrCalculator × List (Option ℚ))
  | [] => .ok (a, [])
  | c :: cs =>
    match a.update c with
    | .error e => .error e
    | .ok (a', o) =>
      match a'.run cs with
      | .error e => .error e
      | .ok (a'', os) => .ok (a'', o :: os)

end AtrCalculator

/-! ### SwingDetector (src/business_logic/indicators.rs, lines 57–155) -/

inductive Trend where
  | up
  | down
deriving DecidableEq, Repr

structure SwingPoint where
  price : ℚ
  is_peak : Bool
deriving DecidableEq, Repr

/-- State of `SwingDetector`. -/
structure SwingDetector where
  rev_atr_mult : ℚ
  trend : Option Trend
  swing_high : ℚ
  swing_high_idx : ℕ
  swing_low : ℚ
  swing_low_idx : ℕ
  candle_idx : ℕ
deriving DecidableEq, Repr

/-- The exact value of Rust's `f64::MAX` (used as the initial `swing_low`;
never read before the first candle overwrites it). -/
def f64MAX : ℚ := 2 ^ 1024 - 2 ^ 971

namespace SwingDetector

/-- `SwingDetector::new`. -/
def new (rev_atr_mult : ℚ) : SwingDetector :=
  { rev_atr_mult := rev_atr_mult, trend := none, swing_high := 0, swing_high_idx := 0,
    swing_low := f64MAX, swing_low_idx := 0, candle_idx := 0 }

/-- `SwingDetector::update`: extend the tracked extreme, then test for a
volatility-scaled reversal; on reversal emit the confirmed swing point, flip
the trend and re-seed the opposite extreme from the current candle. -/
def update (s : SwingDetector) (c : Candle) (atr : ℚ) : SwingDetector × Option SwingPoint :=
  let rev := s.rev_atr_mult * atr
  let i := s.candle_idx + 1
  match s.trend with
  | none =>
    ({ s with trend := some .up, swing_high := c.high, swing_high_idx := i,
              swing_low := c.low, swing_low_idx := i, candle_idx := i }, none)
  | some .up =>
    let sh := if c.high > s.swing_high then c.high else s.swing_high
    let shi := if c.high > s.swing_high then i else s.swing_high_idx
    if sh - c.low ≥ rev then
      ({ s with trend := some .down, swing_high := sh, swing_high_idx := shi,
                swing_low := c.low, swing_low_idx := i, candle_idx := i },
       some { price := sh, is_peak := true })
    else
      ({ s with swing_high := sh, swing_high_idx := shi, candle_idx := i }, none)
  | some .down =>
    let sl := if c.low < s.swing_low then c.low else s.swing_low
    let sli := if c.low < s.swing_low then i else s.swing_low_idx
    if c.high - sl ≥ rev then
      ({ s with trend := some .up, swing_low := sl, swing_low_idx := sli,
                swing_high := c.high, swing_high_idx := i, candle_idx := i },
       some { price := sl, is_peak := false })
    else
      ({ s with swing_low := sl, swing_low_idx := sli, candle_idx := i }, none)

/-- The swing points emitted over a sequence of (candle, atr) inputs, in
order. -/
def emits (s : SwingDetector) : List (Candle × ℚ) → List SwingPoint
  | [] => []
  | (c, a) :: rest =>
    match s.update c a with
    | (s', some p) => p :: s'.emits rest
    | (s', none) => s'.emits rest

end SwingDetector

/-! ### DoubleTopDetector (src/business_logic/double_top.rs) -/

/-- `PatternState` (double_top.rs, lines 7–21). -/
inductive PatternState where
  | watching
  | peakFound
  | troughFound
  | forming
  | confirmed
  | invalidated
deriving DecidableEq, Repr

/-- `Alert` (double_top.rs, lines 24–36). -/
inductive Alert where
  | earlyWarning (coin : String) (peak_price current_price : ℚ)
  | confirmation (coin : String) (neckline_price break_price : ℚ)
deriving DecidableEq, Repr

/-- `PeakInfo` (double_top.rs, lines 39–43). -/
structure PeakInfo where
  price : ℚ
  candle_idx : ℕ
deriving DecidableEq, Repr

/-- `DoubleTopConfig` (src/business_logic/config.rs), restricted to the fields
the detection core reads (`peak_lookback` is backtest-only and
`confirmation_mode` is never consulted by double_top.rs, which confirms on the
close price unconditionally). -/
structure DoubleTopConfig where
  warmup_candles : ℕ
  history_window : ℕ
  max_peak_distance : ℕ
  peak_tolerance : ℚ
  min_pullback_pct : ℚ
  min_pattern_height : ℚ
  approach_threshold : ℚ
  atr_period : ℕ
  rev_atr : ℚ
  breakdown_buffer : ℚ
  peak_fail_pct : ℚ
  trend_lookback : ℕ
deriving DecidableEq, Repr

/-- State of `DoubleTopDetector` (double_top.rs, lines 46–61). -/
structure DoubleTopDetector where
  coin : String
  config : DoubleTopConfig
  state : PatternState
  atr : AtrCalculator
  swing : SwingDetector
  candles : List Candle
  candle_count : ℕ
  peak1 : Option PeakInfo
  trough_low : Option ℚ
  peak2 : Option PeakInfo
  early_warning_sent : Bool
deriving DecidableEq, Repr

namespace DoubleTopDetector

/-- `DoubleTopDetector::new` — no validation of the configuration is
performed. -/
def new (coin : String) (config : DoubleTopConfig) : DoubleTopDetector :=
  { coin := coin, config := config, state := .watching,
    atr := AtrCalculator.new config.atr_period, swing := SwingDetector.new config.rev_atr,
    candles := [], candle_count := 0, peak1 := none, trough_low := none, peak2 := none,
    early_warning_sent := false }

/-- `DoubleTopDetector::peaks_match` (lines 355–359): relative difference
against the mean of the two prices, compared with `peak_tolerance`. -/
def peaks_match (d : DoubleTopDetector) (peak1 peak2 : ℚ) : Bool :=
  let peak_avg := (peak1 + peak2) / 2
  let peak_diff_pct := |peak1 - peak2| / peak_avg * 100
  peak_diff_pct ≤ d.config.peak_tolerance

/-- `DoubleTopDetector::reset_with_peak` (lines 361–376). -/
def reset_with_peak (d : DoubleTopDetector) (sp : SwingPoint) : DoubleTopDetector :=
  { d with peak1 := some { price := sp.price, candle_idx := d.candle_count },
           state := .peakFound, trough_low := none, peak2 := none,
           early_warning_sent := false }

/-- `DoubleTopDetector::handle_swing_point` (lines 116–193). -/
def handle_swing_point (d : DoubleTopDetector) (sp : SwingPoint) : DoubleTopDetector :=
  match d.state with
  | .watching =>
    if sp.is_peak then
      { d with peak1 := some { price := sp.price, candle_idx := d.candle_count },
               state := .peakFound, trough_low := none, peak2 := none,
               early_warning_sent := false }
    else d
  | .peakFound | .troughFound | .forming =>
    if !sp.is_peak then
      match d.peak1 with
      | some peak1 =>
        let pullback_pct := (peak1.price - sp.price) / peak1.price * 100
        if pullback_pct ≥ d.config.min_pullback_pct then
          let should_update : Bool :=
            match d.trough_low with
            | some t => decide (sp.price < t)
            | none => true
          if should_update then
            { d with trough_low := some sp.price,
                     state := if d.state = .peakFound then .troughFound else d.state }
          else d
        else d
      | none => d
    else
      if d.state = .troughFound ∨ d.state = .forming then
        match d.peak1 with
        | some peak1 =>
          if d.peaks_match peak1.price sp.price then
            { d with peak2 := some { price := sp.price, candle_idx := d.candle_count } }
          else d
        | none => d
      else d
  | .confirmed | .invalidated =>
    if sp.is_peak then d.reset_with_peak sp else d

/-- `DoubleTopDetector::check_early_warning` (lines 266–309). -/
def check_early_warning (d : DoubleTopDetector) (c : Candle) : Option Alert :=
  match d.peak1, d.trough_low with
  | some peak1, some trough =>
    let pattern_height_pct := (peak1.price - trough) / peak1.price * 100
    if pattern_height_pct < d.config.min_pattern_height then none
    else
      let distance_pct := |peak1.price - c.close| / peak1.price * 100
      if distance_pct > d.config.approach_threshold then none
      else
        let lookFail : Bool :=
          if d.candles.length > d.config.trend_lookback then
            let lookback_idx := d.candles.length - d.config.trend_lookback - 1
            let prev_close := ((d.candles.get? lookback_idx).map Candle.close).getD 0
            c.close ≤ prev_close
          else false
        if lookFail then none
        else
          let fail_level := peak1.price * (1 + d.config.peak_fail_pct / 100)
          if c.high > fail_level then none
          else some (.earlyWarning d.coin peak1.price c.close)
  | _, _ => none

/-- `DoubleTopDetector::check_confirmation` (lines 311–353). -/
def check_confirmation (d : DoubleTopDetector) (c : Candle) (atr : ℚ) : Option Alert :=
  match d.peak1, d.trough_low, d.peak2 with
  | some peak1, some trough, some peak2 =>
    if !d.peaks_match peak1.price peak2.price then none
    else if (peak1.price - trough) / peak1.price * 100 < d.config.min_pattern_height then none
    else
      let breakdown_buffer_price := d.config.breakdown_buffer * atr
      let break_level := trough - breakdown_buffer_price
      if c.close < break_level then
        some (.confirmation d.coin trough c.close)
      else none
  | _, _, _ => none

/-- Neckline tightening (double_top.rs, lines 225–240): while TroughFound or
Forming and `peak2` absent, a candle low undercutting the tracked trough
lowers it immediately. -/
def tighten_neckline (d : DoubleTopDetector) (c : Candle) : DoubleTopDetector :=
  if d.state = .troughFound ∨ d.state = .forming then
    match d.trough_low with
    | some trough =>
      if c.low < trough ∧ d.peak2 = none then { d with trough_low := some c.low } else d
    | none => d
  else d

/-- Tail of `check_state_transitions` after the invalidation checks
(double_top.rs, lines 225–263): neckline tightening on a new low while `peak2`
is absent, then the early-warning / confirmation checks for the current
state. -/
def check_transitions_rest (d : DoubleTopDetector) (c : Candle) (atr : ℚ) :
    DoubleTopDetector × Option Alert :=
  let d1 := d.tighten_neckline c
  match d1.state with
  | .troughFound =>
    if !d1.early_warning_sent then
      match d1.check_early_warning c with
      | some alert => ({ d1 with state := .forming, early_warning_sent := true }, some alert)
      | none => (d1, none)
    else (d1, none)
  | .forming =>
    match d1.check_confirmation c atr with
    | some alert => ({ d1 with state := .confirmed }, some alert)
    | none => (d1, none)
  | _ => (d1, none)

/-- `DoubleTopDetector::check_state_transitions` (lines 195–264): the
invalidation conditions are evaluated first, while `peak1` is tracked; either
one sets the state to `Invalidated` and returns no alert (the tracked
`peak1` / `trough_low` / `peak2` fields are left in place). -/
def check_state_transitions (d : DoubleTopDetector) (c : Candle) (atr : ℚ) :
    DoubleTopDetector × Option Alert :=
  match d.peak1 with
  | some peak1 =>
    let fail_level := peak1.price * (1 + d.config.peak_fail_pct / 100)
    if c.high > fail_level then ({ d with state := .invalidated }, none)
    else
      let candles_since := d.candle_count - peak1.candle_idx
      if candles_since > d.config.max_peak_distance then ({ d with state := .invalidated }, none)
      else d.check_transitions_rest c atr
  | none => d.check_transitions_rest c atr

/-- `DoubleTopDetector::process_candle` (lines 85–114): bump the counter,
maintain the rolling window, update the ATR (this may panic for a zero ATR
period), gate on warmup and ATR availability, feed any swing point to the
state machine, then run the state transitions. -/
def process_candle (d : DoubleTopDetector) (c : Candle) :
    Except String (DoubleTopDetector × Option Alert) :=
  let d := { d with candle_count := d.candle_count + 1 }
  let pushed := d.candles ++ [c]
  let d := { d with candles := if pushed.length > d.config.history_window then pushed.drop 1
                               else pushed }
  match d.atr.update c with
  | .error e => .error e
  | .ok (atr', atrOpt) =>
    let d := { d with atr := atr' }
    if d.candle_count < d.config.warmup_candles then .ok (d, none)
    else
      match atrOpt with
      | none => .ok (d, none)
      | some atr =>
        let (sw', spOpt) := d.swing.update c atr
        let d := { d with swing := sw' }
        let d := match spOpt with
          | some sp => d.handle_swing_point sp
          | none => d
        .ok (d.check_state_transitions c atr)

/-- Run `process_candle` over a list of candles, keeping the final state only. -/
def runCandles (d : DoubleTopDetector) : List Candle → Except String DoubleTopDetector
  | [] => .ok d
  | c :: cs =>
    match d.process_candle c with
    | .error e => .error e
    | .ok (d', _) => d'.runCandles cs

end DoubleTopDetector

/-! ### MonitorService cycle (src/services/monitor.rs) -/

/-- `INTERVAL_MS` (monitor.rs, line 9). -/
def INTERVAL_MS : ℕ := 60000

/-- Lookup in an association list (model of `HashMap::get`). -/
def alookup {β : Type} (k : String) : List (String × β) → Option β
  | [] => none
  | (k', v) :: rest => if k' = k then some v else alookup k rest

/-- Insert/overwrite in an association list (model of `HashMap::insert`; the
map is only ever observed through `alookup`, so entry order is immaterial). -/
def aset {β : Type} (k : String) (v : β) : List (String × β) → List (String × β)
  | [] => [(k, v)]
  | (k', v') :: rest => if k' = k then (k, v) :: rest else (k', v') :: aset k v rest

/-- Mutable state of `MonitorService` relevant to a cycle: the per-coin
detectors and the per-coin watermark `last_candle_time`. -/
structure MonitorService where
  detectors : List (String × DoubleTopDetector)
  last_candle_time : List (String × ℕ)
deriving DecidableEq, Repr

namespace MonitorService

/-- The body of the candle loop of `MonitorService::process_coin` (monitor.rs,
lines 143–154): feed every candle that is closed (`close_time ≤ now −
INTERVAL_MS`) and strictly newer than the watermark read at the start of the
loop, returning the updated detector and the close time of the last candle fed
(the watermark is re-inserted per candle fed, so the final value is the last
one).  Alerts are only logged by the coordinator and are dropped here. -/
def feedCandles (d : DoubleTopDetector) (last_time now : ℕ) :
    List Candle → Except String (DoubleTopDetector × Option ℕ)
  | [] => .ok (d, none)
  | c :: cs =>
    if c.close_time ≤ now - INTERVAL_MS ∧ c.close_time > last_time then
      match d.process_candle c with
      | .error e => .error e
      | .ok (d', _) =>
        match feedCandles d' last_time now cs with
        | .error e => .error e
        | .ok (d'', w) => .ok (d'', some (w.getD c.close_time))
    else feedCandles d last_time now cs

/-- `MonitorService::process_coin` (monitor.rs, lines 122–162).  A fetch
failure is returned as `Err` by the Rust function and caught by the caller's
`if let Err` (logged, cycle continues), leaving the service state untouched:
modelled as `.ok s`.  A detector panic (only possible for an invalid ATR
period) is not caught anywhere and aborts the whole task: modelled as
`.error`. -/
def process_coin (fetch : String → Except String (List Candle)) (now : ℕ)
    (s : MonitorService) (coin : String) : Except String MonitorService :=
  match fetch coin with
  | .error _ => .ok s
  | .ok candles =>
    let last_time := (alookup coin s.last_candle_time).getD 0
    match alookup coin s.detectors with
    | none => .ok s
    | some d =>
      match feedCandles d last_time now candles with
      | .error e => .error e
      | .ok (d', wOpt) =>
        .ok { detectors := aset coin d' s.detectors,
              last_candle_time :=
                match wOpt with
                | some t => aset coin t s.last_candle_time
                | none => s.last_candle_time }

/-- One monitoring cycle (the per-tick body of `MonitorService::run`,
monitor.rs, lines 109–115): process each coin in turn, catching per-coin fetch
errors. -/
def runCycle (fetch : String → Except String (List Candle)) (now : ℕ)
    (s : MonitorService) : List String → Except String MonitorService
  | [] => .ok s
  | coin :: rest =>
    match s.process_coin fetch now coin with
    | .error e => .error e
    | .ok s' => s'.runCycle fetch now rest

end MonitorService

/-! ### Specification-side definitions -/

/-- True-range sequence of a candle list, threading the previous close exactly
as `AtrCalculator` does (the previous-close terms are omitted for the very
first candle). -/
def trFrom (pc : Option ℚ) : List Candle → List ℚ
  | [] => []
  | c :: cs => AtrCalculator.true_range ⟨0, [], pc⟩ c :: trFrom (some c.close) cs

/-- Modelled from the amended claim C2: with period `P`, the `k`-th update
(0-indexed) over true-range sequence `trs` returns `none` while fewer than `P`
true ranges have been seen, the mean of the first `P` true ranges at the
`P`-th update, and afterwards `(windowMean·(P−1) + tr_k)/P` where `windowMean`
is the arithmetic mean of the `P` true ranges `trs[k−P..k−1]` — a sliding
simple average, not the previously returned value. -/
def atrSpec (P : ℕ) (trs : List ℚ) (k : ℕ) : Option ℚ :=
  if k + 1 < P then none
  else if k + 1 = P then some ((trs.take P).sum / (P : ℚ))
  else some (((((trs.drop (k - P)).take P).sum / (P : ℚ)) * ((P : ℚ) - 1) + trs.getD k 0) / (P : ℚ))

/-- Swing points emitted from a state whose trend is `t` come in strict
peak/trough alternation starting with the polarity matching `t`. -/
def altFrom : Trend → List SwingPoint → Prop
  | _, [] => True
  | .up, p :: rest => p.is_peak = true ∧ altFrom .down rest
  | .down, p :: rest => p.is_peak = false ∧ altFrom .up rest

/-- Extract the value of a successful computation, with an explicit fallback
(used only to name concrete evaluation results in witnesses). -/
def getOk {α : Type} (x : Except String α) (dflt : α) : α :=
  match x with
  | .ok v => v
  | .error _ => dflt

/-! ### Concrete witness scenario

A detector configuration with no warmup gate, ATR period 1 and reversal
multiple 2, fed gap-less candles (each candle spans from the previous close to
its own close), so the true range of every candle is exactly its close-to-close
move.  Along `wCloses` the run below produces: first peak 102 at candle 5,
trough 97 and an EarlyWarning at candle 10, invalidation at candle 11 (high
154 above the fail level 153), a fresh first peak 154 at candle 13, trough 150
and a second EarlyWarning at candle 17, second peak 154 at candle 21, and a
close-based Confirmation (neckline 150, break 149) at candle 23. -/

def wCfg : DoubleTopConfig :=
  { warmup_candles := 0, history_window := 100, max_peak_distance := 1000,
    peak_tolerance := 10, min_pullback_pct := 2, min_pattern_height := 2,
    approach_threshold := 5, atr_period := 1, rev_atr := 2, breakdown_buffer := 0,
    peak_fail_pct := 50, trend_lookback := 1 }

def wCloses : List ℚ :=
  [100, 101, 102, 101, 100, 99, 98, 97, 98, 99, 154, 153,
   152, 151, 150, 151, 152, 153, 154, 153, 152, 151, 149]

def wCandles : List Candle :=
  (wCloses.zip (100 :: wCloses)).map (fun p => mkCandle (max p.1 p.2) (min p.1 p.2) p.1)

def wD0 : DoubleTopDetector := DoubleTopDetector.new "BTC" wCfg

def wDummy : Candle := mkCandle 0 0 0

/-- Candles 1–9 of the scenario. -/
def wL1 : List Candle := wCandles.take 9

/-- Candle 10 (fires the first EarlyWarning). -/
def wC10 : Candle := (wCandles.drop 9).headD wDummy

/-- Candle 11 (triggers invalidation). -/
def wC11 : Candle := (wCandles.drop 10).headD wDummy

/-- Candles 11–16 of the scenario. -/
def wL2 : List Candle := (wCandles.drop 10).take 6

/-- Candle 17 (fires the second EarlyWarning). -/
def wC17 : Candle := (wCandles.drop 16).headD wDummy

/-- Detector state after candles 1–9. -/
def wDA : DoubleTopDetector := getOk (wD0.runCandles wL1) wD0

/-- Detector state after candle 10 (state Forming, early warning sent). -/
def wDA' : DoubleTopDetector := (getOk (wDA.process_candle wC10) (wDA, none)).1

/-- Detector state after candles 11–16. -/
def wDB : DoubleTopDetector := getOk (wDA'.runCandles wL2) wDA'

/-- Detector state after candle 17. -/
def wDB' : DoubleTopDetector := (getOk (wDB.process_candle wC17) (wDB, none)).1

/-- Candles with true ranges 2, 4, 6, 8 (no gaps below the previous close of
0), used to separate window-mean smoothing from recursive Wilder smoothing at
period 2. -/
def c2Candles : List Candle := [mkCandle 2 0 0, mkCandle 4 0 0, mkCandle 6 0 0, mkCandle 8 0 0]

/-- Hand-built Forming state: first peak 154 at candle 13, neckline 150,
second peak 154 at candle 21, early warning already sent, 22 candles seen. -/
def wForm : DoubleTopDetector :=
  { coin := "BTC", config := wCfg, state := .forming,
    atr := { period := 1, values := [1], prev_close := some 151 },
    swing := SwingDetector.new 2, candles := [], candle_count := 22,
    peak1 := some { price := 154, candle_idx := 13 }, trough_low := some 150,
    peak2 := some { price := 154, candle_idx := 21 }, early_warning_sent := true }

/-- Breakdown candle for `wForm`: close 149 below the neckline 150. -/
def wBreak : Candle := mkCandle 151 149 149

/-- Hand-built PeakFound state: first peak 102 at candle 5, nothing else
tracked. -/
def wPF : DoubleTopDetector :=
  { coin := "BTC", config := wCfg, state := .peakFound,
    atr := { period := 1, values := [1], prev_close := some 100 },
    swing := SwingDetector.new 2, candles := [], candle_count := 7,
    peak1 := some { price := 102, candle_idx := 5 }, trough_low := none,
    peak2 := none, early_warning_sent := false }

/-! ### Concrete monitoring-cycle data: coin A's fetch fails, coin B's
succeeds with one closed candle. -/

def wCandleB : Candle :=
  { open_time := 440000, close_time := 500000, high := 100, low := 99, close := 100 }

def wMS : MonitorService :=
  { detectors := [("A", DoubleTopDetector.new "A" wCfg), ("B", DoubleTopDetector.new "B" wCfg)],
    last_candle_time := [] }

def wFetch : String → Except String (List Candle) :=
  fun coin => if coin = "A" then .error "fetch failed" else .ok [wCandleB]

def wNow : ℕ := 1000000

/-! ## Theorems -/

/-- C9: with a zero-length volatility period (`atr_period = 0`) construction
does NOT fail: `AtrCalculator::new`/`DoubleTopDetector::new` return ordinary
states.  Instead the very first per-candle update is the first point of
failure (`values.remove(0)` on an empty vector), for every candle: the code
fails mid-stream, contradicting the spec's fail-fast-at-construction
requirement. -/
theorem c9_zero_period_fails_mid_stream (coin : String) (cfg : DoubleTopConfig) (c : Candle)
    (h : cfg.atr_period = 0) :
    DoubleTopDetector.new coin cfg =
      { coin := coin, config := cfg, state := .watching, atr := ⟨0, [], none⟩,
        swing := SwingDetector.new cfg.rev_atr, candles := [], candle_count := 0,
        peak1 := none, trough_low := none, peak2 := none, early_warning_sent := false } ∧
    (∃ e, (AtrCalculator.new cfg.atr_period).update c = .error e) ∧
    (∃ e, (DoubleTopDetector.new coin cfg).process_candle c = .error e) := by
  refine ⟨?_, ⟨"index out of bounds: Vec::remove(0) on empty values", ?_⟩,
    ⟨"index out of bounds: Vec::remove(0) on empty values", ?_⟩⟩
  · simp [DoubleTopDetector.new, AtrCalculator.new, h]
  · simp [AtrCalculator.new, AtrCalculator.update, h]
  · simp [DoubleTopDetector.new, DoubleTopDetector.process_candle, AtrCalculator.new,
      AtrCalculator.update, h]

/-- C9 witness: the default-like configuration with `atr_period := 0` and the
repository's own test candle (102, 98, 100). -/
theorem c9_zero_period_fails_mid_stream_witness :
    ({ wCfg with atr_period := 0 } : DoubleTopConfig).atr_period = 0 ∧
    ∃ e, (DoubleTopDetector.new "BTC" { wCfg with atr_period := 0 }).process_candle
      (mkCandle 102 98 100) = .error e :=
  ⟨rfl, (c9_zero_period_fails_mid_stream "BTC" { wCfg with atr_period := 0 }
    (mkCandle 102 98 100) rfl).2.2⟩

/-- C2 counterexample: with period 2 over true ranges 2, 4, 6, 8 the updates
return none, 3, 9/2, then 13/2 — but the claim's recursion
`(prevValue·(P−1) + tr)/P` with `prevValue` the value returned by the
immediately preceding update gives `(9/2·1 + 8)/2 = 25/4` for the fourth
update: the code smooths against the sliding window mean `(4+6)/2 = 5`, not
against the previous output. -/
theorem c2_not_previous_value_counterexample :
    (AtrCalculator.new 2).run c2Candles =
      .ok (⟨2, [6, 8], some 0⟩, [none, some 3, some (9/2), some (13/2)]) ∧
    (13 : ℚ)/2 ≠ ((9/2) * (2 - 1) + 8) / 2 := by
  constructor
  · with_unfolding_all rfl
  · with_unfolding_all decide

theorem AtrCalculator.run_cons (a : AtrCalculator) (c : Candle) (cs : List Candle) :
    a.run (c :: cs) =
      match a.update c with
      | .error e => .error e
      | .ok (a', o) =>
        match a'.run cs with
        | .error e => .error e
        | .ok (a'', os) => .ok (a'', o :: os) := rfl

theorem AtrCalculator.update_warming (a : AtrCalculator) (c : Candle)
    (h : a.values.length < a.period) :
    a.update c = .ok (⟨a.period, a.values ++ [a.true_range c], some c.close⟩,
      if a.values.length + 1 = a.period then
        some ((a.values ++ [a.true_range c]).sum / (a.period : ℚ))
      else none) := by
  rw [AtrCalculator.update, if_pos h]
  simp only [List.length_append, List.length_cons, List.length_nil, Nat.zero_add]
  split <;> rfl

theorem AtrCalculator.update_smoothing (a : AtrCalculator) (c : Candle)
    (h : ¬ a.values.length < a.period) (v : ℚ) (vrest : List ℚ) (hv : a.values = v :: vrest) :
    a.update c = .ok (⟨a.period, vrest ++ [a.true_range c], some c.close⟩,
      some ((((v :: vrest).sum / (a.period : ℚ)) * ((a.period : ℚ) - 1) + a.true_range c) /
        (a.period : ℚ))) := by
  rw [AtrCalculator.update, if_neg h, hv]

theorem atr_run_spec_aux (P : ℕ) (hP : 1 ≤ P) (rest : List Candle) :
    ∀ (hist : List ℚ) (pc : Option ℚ),
    ∃ pr : AtrCalculator × List (Option ℚ),
      AtrCalculator.run ⟨P, hist.drop (hist.length - P), pc⟩ rest = .ok pr ∧
      pr.2.length = rest.length ∧
      ∀ k, k < rest.length →
        pr.2.getD k none = atrSpec P (hist ++ trFrom pc rest) (hist.length + k) := by
  induction rest with
  | nil =>
    intro hist pc
    exact ⟨(⟨P, hist.drop (hist.length - P), pc⟩, []), rfl, rfl, fun k hk => absurd hk (by simp)⟩
  | cons c cs ih =>
    intro hist pc
    have htrf : trFrom pc (c :: cs) =
        AtrCalculator.true_range ⟨0, [], pc⟩ c :: trFrom (some c.close) cs := rfl
    set tr := AtrCalculator.true_range ⟨0, [], pc⟩ c with htr
    have hcomb : hist ++ trFrom pc (c :: cs) = (hist ++ [tr]) ++ trFrom (some c.close) cs := by
      rw [htrf, List.append_assoc]
      rfl
    obtain ⟨⟨fin, outs⟩, hrun, hlen2, hspec⟩ := ih (hist ++ [tr]) (some c.close)
    by_cases hlen : hist.length < P
    · -- warming phase: the window is all of hist
      have hdrop : hist.drop (hist.length - P) = hist := by
        rw [show hist.length - P = 0 by omega]
        rfl
      have hdrop' : (hist ++ [tr]).drop ((hist ++ [tr]).length - P) = hist ++ [tr] := by
        rw [show (hist ++ [tr]).length - P = 0 by simp; omega]
        rfl
      rw [hdrop'] at hrun
      refine ⟨(fin, (if hist.length + 1 = P then some ((hist ++ [tr]).sum / (P : ℚ)) else none)
          :: outs), ?_, ?_, ?_⟩
      · rw [AtrCalculator.run_cons, hdrop,
          AtrCalculator.update_warming ⟨P, hist, pc⟩ c hlen]
        simp only
        rw [show AtrCalculator.true_range ⟨P, hist, pc⟩ c = tr from rfl, hrun]
      · simpa using hlen2
      · intro k hk
        match k with
        | 0 =>
          simp only [List.getD_cons_zero, Nat.add_zero]
          rw [hcomb, atrSpec]
          by_cases hP1 : hist.length + 1 = P
          · rw [if_pos hP1, if_neg (show ¬ hist.length + 1 < P by omega), if_pos hP1,
              List.take_left' (by simp; omega)]
          · rw [if_neg hP1, if_pos (show hist.length + 1 < P by omega)]
        | k + 1 =>
          simp only [List.getD_cons_succ]
          rw [hspec k (by simpa using hk), hcomb,
            show (hist ++ [tr]).length + k = hist.length + (k + 1) by simp; omega]
    · -- smoothing phase: the window holds the last P true ranges
      have hvlen : (hist.drop (hist.length - P)).length = P := by
        simp only [List.length_drop]
        omega
      obtain ⟨v, vrest, hv⟩ : ∃ v vrest, hist.drop (hist.length - P) = v :: vrest := by
        cases hveq : hist.drop (hist.length - P) with
        | nil => rw [hveq] at hvlen; simp at hvlen; omega
        | cons v vrest => exact ⟨v, vrest, rfl⟩
      have hvrest : vrest = (hist.drop (hist.length - P)).drop 1 := by rw [hv]; rfl
      have hdrop' : (hist ++ [tr]).drop ((hist ++ [tr]).length - P) = vrest ++ [tr] := by
        rw [show (hist ++ [tr]).length - P = (hist.length - P) + 1 by simp; omega,
          List.drop_append_of_le_length (by omega), hvrest, List.drop_drop]
      rw [hdrop'] at hrun
      have hnl : ¬ (hist.drop (hist.length - P)).length < P := by omega
      refine ⟨(fin,
        some ((((v :: vrest).sum / (P : ℚ)) * ((P : ℚ) - 1) + tr) / (P : ℚ)) :: outs),
        ?_, ?_, ?_⟩
      · rw [AtrCalculator.run_cons,
          AtrCalculator.update_smoothing ⟨P, hist.drop (hist.length - P), pc⟩ c hnl v vrest hv]
        simp only
        rw [show AtrCalculator.true_range ⟨P, hist.drop (hist.length - P), pc⟩ c = tr from rfl,
          hrun]
      · simpa using hlen2
      · intro k hk
        match k with
        | 0 =>
          simp only [List.getD_cons_zero, Nat.add_zero]
          rw [htrf, atrSpec]
          rw [if_neg (by omega), if_neg (by omega)]
          have h1 : (hist ++ tr :: trFrom (some c.close) cs).drop (hist.length - P) =
              (v :: vrest) ++ (tr :: trFrom (some c.close) cs) := by
            rw [List.drop_append_of_le_length (by omega), hv]
          have h2 : ((hist ++ tr :: trFrom (some c.close) cs).drop (hist.length - P)).take P =
              v :: vrest := by
            rw [h1, List.take_left' (by rw [← hv]; exact hvlen)]
          have h3 : (hist ++ tr :: trFrom (some c.close) cs).getD hist.length 0 = tr := by
            simp [List.getD_eq_getElem?_getD, List.getElem?_append_right (Nat.le_refl _)]
          rw [h2, h3]
        | k + 1 =>
          simp only [List.getD_cons_succ]
          rw [hspec k (by simpa using hk), hcomb,
            show (hist ++ [tr]).length + k = hist.length + (k + 1) by simp; omega]

/-- C2 (amended): for every period `P ≥ 1` the estimator run never fails; it
returns `none` for the first `P−1` updates; the `P`-th update returns the
arithmetic mean of the first `P` true ranges (previous-close terms omitted for
the very first candle); and every update after the `P`-th returns
`(windowMean·(P−1) + tr)/P` where `windowMean` is the mean of the previous `P`
true ranges (a sliding simple average) — not the value returned by the
immediately preceding update, which the claim stated and which
`c2_not_previous_value_counterexample` refutes. -/
theorem c2_atr_outputs_follow_window_mean (P : ℕ) (hP : 1 ≤ P) (l : List Candle) :
    ∃ pr : AtrCalculator × List (Option ℚ),
      (AtrCalculator.new P).run l = .ok pr ∧
      pr.2.length = l.length ∧
      ∀ k, k < l.length → pr.2.getD k none = atrSpec P (trFrom none l) k := by
  obtain ⟨pr, h1, h2, h3⟩ := atr_run_spec_aux P hP l [] none
  rw [List.drop_nil] at h1
  refine ⟨pr, h1, h2, fun k hk => ?_⟩
  simpa using h3 k hk

/-- C2 witness: period 2 over the four concrete candles of the
counterexample. -/
theorem c2_atr_outputs_follow_window_mean_witness :
    1 ≤ 2 ∧
    ∃ pr : AtrCalculator × List (Option ℚ),
      (AtrCalculator.new 2).run c2Candles = .ok pr ∧
      pr.2.length = c2Candles.length ∧
      ∀ k, k < c2Candles.length → pr.2.getD k none = atrSpec 2 (trFrom none c2Candles) k :=
  ⟨by decide, c2_atr_outputs_follow_window_mean 2 (by decide) c2Candles⟩

theorem altFrom_chain (ps : List SwingPoint) : ∀ t, altFrom t ps →
    List.Chain' (fun p q => p.is_peak ≠ q.is_peak) ps := by
  induction ps with
  | nil => exact fun t _ => List.chain'_nil
  | cons p rest ih =>
    intro t h
    cases rest with
    | nil => exact List.chain'_singleton p
    | cons q rest' =>
      cases t with
      | up =>
        obtain ⟨hp, hq, h3⟩ := h
        exact List.chain'_cons.mpr ⟨by rw [hp, hq]; simp, ih .down ⟨hq, h3⟩⟩
      | down =>
        obtain ⟨hp, hq, h3⟩ := h
        exact List.chain'_cons.mpr ⟨by rw [hp, hq]; simp, ih .up ⟨hq, h3⟩⟩

theorem emits_altFrom (l : List (Candle × ℚ)) : ∀ (s : SwingDetector) (t : Trend),
    s.trend = some t → altFrom t (s.emits l) := by
  induction l with
  | nil => intro s t ht; cases t <;> trivial
  | cons ca rest ih =>
    intro s t ht
    obtain ⟨c, a⟩ := ca
    obtain ⟨r, tr, sh, shi, sl, sli, i⟩ := s
    simp only at ht
    subst ht
    cases t with
    | up =>
      simp only [SwingDetector.emits, SwingDetector.update]
      by_cases hrev : (if c.high > sh then c.high else sh) - c.low ≥ r * a
      · rw [if_pos hrev]
        exact ⟨rfl, ih _ .down rfl⟩
      · rw [if_neg hrev]
        exact ih _ .up rfl
    | down =>
      simp only [SwingDetector.emits, SwingDetector.update]
      by_cases hrev : c.high - (if c.low < sl then c.low else sl) ≥ r * a
      · rw [if_pos hrev]
        exact ⟨rfl, ih _ .up rfl⟩
      · rw [if_neg hrev]
        exact ih _ .down rfl

/-- C7: the swing points emitted by a fresh swing detector over any input
sequence strictly alternate in polarity: no two consecutive emitted points
share `is_peak`. -/
theorem c7_swing_points_alternate (r : ℚ) (l : List (Candle × ℚ)) :
    List.Chain' (fun p q => p.is_peak ≠ q.is_peak) ((SwingDetector.new r).emits l) := by
  cases l with
  | nil => exact List.chain'_nil
  | cons ca rest =>
    obtain ⟨c, a⟩ := ca
    exact altFrom_chain _ .up (emits_altFrom rest
      { rev_atr_mult := r, trend := some .up, swing_high := c.high, swing_high_idx := 1,
        swing_low := c.low, swing_low_idx := 1, candle_idx := 1 } .up rfl)

/-- C6: single-step characterization of `SwingDetector::update`.  On the first
candle both extremes are seeded from the candle, the trend defaults to Up and
nothing is emitted.  While trending Up the swing high is raised to the
candle's high when higher; when the (updated) swing high exceeds the candle's
low by at least `rev_atr_mult·atr` the call emits a confirmed peak priced at
the swing high and, atomically, flips the trend to Down and re-seeds the swing
low (and its index) from the current candle; otherwise nothing is emitted, the
trend stays Up and the swing low is untouched.  The Down case is symmetric.
At most one point per call is immediate from the `Option` result; no
look-ahead is structural (the step consumes one candle). -/
theorem c6_swing_update_step (s : SwingDetector) (c : Candle) (atr : ℚ) :
    (s.trend = none →
      s.update c atr =
        ({ s with trend := some .up, swing_high := c.high,
                  swing_high_idx := s.candle_idx + 1, swing_low := c.low,
                  swing_low_idx := s.candle_idx + 1, candle_idx := s.candle_idx + 1 }, none)) ∧
    (s.trend = some .up →
      (s.update c atr).1.swing_high = max s.swing_high c.high ∧
      (max s.swing_high c.high - c.low ≥ s.rev_atr_mult * atr →
        s.update c atr =
          ({ s with trend := some .down, swing_high := max s.swing_high c.high,
                    swing_high_idx :=
                      if c.high > s.swing_high then s.candle_idx + 1 else s.swing_high_idx,
                    swing_low := c.low, swing_low_idx := s.candle_idx + 1,
                    candle_idx := s.candle_idx + 1 },
           some { price := max s.swing_high c.high, is_peak := true })) ∧
      (max s.swing_high c.high - c.low < s.rev_atr_mult * atr →
        (s.update c atr).2 = none ∧ (s.update c atr).1.trend = some .up ∧
        (s.update c atr).1.swing_low = s.swing_low ∧
        (s.update c atr).1.swing_low_idx = s.swing_low_idx)) ∧
    (s.trend = some .down →
      (s.update c atr).1.swing_low = min s.swing_low c.low ∧
      (c.high - min s.swing_low c.low ≥ s.rev_atr_mult * atr →
        s.update c atr =
          ({ s with trend := some .up, swing_low := min s.swing_low c.low,
                    swing_low_idx :=
                      if c.low < s.swing_low then s.candle_idx + 1 else s.swing_low_idx,
                    swing_high := c.high, swing_high_idx := s.candle_idx + 1,
                    candle_idx := s.candle_idx + 1 },
           some { price := min s.swing_low c.low, is_peak := false })) ∧
      (c.high - min s.swing_low c.low < s.rev_atr_mult * atr →
        (s.update c atr).2 = none ∧ (s.update c atr).1.trend = some .down ∧
        (s.update c atr).1.swing_high = s.swing_high ∧
        (s.update c atr).1.swing_high_idx = s.swing_high_idx)) := by
  obtain ⟨r, tr, sh, shi, sl, sli, i⟩ := s
  have hmax : (if c.high > sh then c.high else sh) = max sh c.high := by
    rcases le_or_lt c.high sh with h | h
    · rw [if_neg (not_lt.mpr h), max_eq_left h]
    · rw [if_pos h, max_eq_right h.le]
  have hmin : (if c.low < sl then c.low else sl) = min sl c.low := by
    rcases le_or_lt sl c.low with h | h
    · rw [if_neg (not_lt.mpr h), min_eq_left h]
    · rw [if_pos h, min_eq_right h.le]
  refine ⟨?_, ?_, ?_⟩
  · intro ht
    simp only at ht
    subst ht
    rfl
  · intro ht
    simp only at ht
    subst ht
    simp only [SwingDetector.update, hmax]
    by_cases hrev : max sh c.high - c.low ≥ r * atr
    · rw [if_pos hrev]
      exact ⟨rfl, fun _ => rfl, fun h => absurd hrev (not_le.mpr h)⟩
    · rw [if_neg hrev]
      exact ⟨rfl, fun h => absurd h hrev, fun _ => ⟨rfl, rfl, rfl, rfl⟩⟩
  · intro ht
    simp only at ht
    subst ht
    simp only [SwingDetector.update, hmin]
    by_cases hrev : c.high - min sl c.low ≥ r * atr
    · rw [if_pos hrev]
      exact ⟨rfl, fun _ => rfl, fun h => absurd hrev (not_le.mpr h)⟩
    · rw [if_neg hrev]
      exact ⟨rfl, fun h => absurd h hrev, fun _ => ⟨rfl, rfl, rfl, rfl⟩⟩

/-- C6 witness: a concrete Up-trend state (swing high 102) and a candle whose
low 100 completes a 2-point reversal, emitting the peak at 102. -/
theorem c6_swing_update_step_witness :
    (SwingDetector.update
        { rev_atr_mult := 2, trend := some .up, swing_high := 102, swing_high_idx := 3,
          swing_low := 95, swing_low_idx := 2, candle_idx := 5 }
        (mkCandle 101 100 100) 1) =
      ({ rev_atr_mult := 2, trend := some .down, swing_high := 102, swing_high_idx := 3,
         swing_low := 100, swing_low_idx := 6, candle_idx := 6 },
       some { price := 102, is_peak := true }) := by
  have h := (c6_swing_update_step
    { rev_atr_mult := 2, trend := some .up, swing_high := 102, swing_high_idx := 3,
      swing_low := 95, swing_low_idx := 2, candle_idx := 5 }
    (mkCandle 101 100 100) 1).2.1 rfl
  have h2 := h.2.1 (by with_unfolding_all decide)
  rw [h2]
  with_unfolding_all decide

/-- Exhaustive case analysis of `handle_swing_point`: every call either leaves
the state untouched, installs a fresh `peak1` (from Watching, Confirmed or
Invalidated on a peak), records/lowers the trough (from PeakFound, TroughFound
or Forming on a qualifying trough), or records `peak2` (from TroughFound or
Forming on a matching peak). -/
theorem hsp_cases (d : DoubleTopDetector) (sp : SwingPoint) :
    d.handle_swing_point sp = d ∨
    (sp.is_peak = true ∧ (d.state = .watching ∨ d.state = .confirmed ∨ d.state = .invalidated) ∧
      d.handle_swing_point sp =
        { d with peak1 := some { price := sp.price, candle_idx := d.candle_count },
                 state := .peakFound, trough_low := none, peak2 := none,
                 early_warning_sent := false }) ∨
    (sp.is_peak = false ∧
      (d.state = .peakFound ∨ d.state = .troughFound ∨ d.state = .forming) ∧
      (∃ p1, d.peak1 = some p1 ∧
        (p1.price - sp.price) / p1.price * 100 ≥ d.config.min_pullback_pct) ∧
      (∀ t, d.trough_low = some t → sp.price < t) ∧
      d.handle_swing_point sp =
        { d with trough_low := some sp.price,
                 state := if d.state = .peakFound then .troughFound else d.state }) ∨
    (sp.is_peak = true ∧ (d.state = .troughFound ∨ d.state = .forming) ∧
      (∃ p1, d.peak1 = some p1 ∧ d.peaks_match p1.price sp.price = true) ∧
      d.handle_swing_point sp =
        { d with peak2 := some { price := sp.price, candle_idx := d.candle_count } }) := by
  have hb : ∀ b : Bool, b = true ∨ b = false := fun b => by cases b <;> simp
  cases hst : d.state
  case watching =>
    rcases hb sp.is_peak with hpk | hpk
    · exact Or.inr (Or.inl ⟨hpk, Or.inl rfl,
        by simp only [DoubleTopDetector.handle_swing_point, hst, hpk, if_true]⟩)
    · exact Or.inl (by simp only [DoubleTopDetector.handle_swing_point, hst, hpk,
        Bool.false_eq_true, if_false])
  case confirmed =>
    rcases hb sp.is_peak with hpk | hpk
    · exact Or.inr (Or.inl ⟨hpk, Or.inr (Or.inl rfl),
        by simp only [DoubleTopDetector.handle_swing_point, DoubleTopDetector.reset_with_peak,
          hst, hpk, if_true]⟩)
    · exact Or.inl (by simp only [DoubleTopDetector.handle_swing_point, hst, hpk,
        Bool.false_eq_true, if_false])
  case invalidated =>
    rcases hb sp.is_peak with hpk | hpk
    · exact Or.inr (Or.inl ⟨hpk, Or.inr (Or.inr rfl),
        by simp only [DoubleTopDetector.handle_swing_point, DoubleTopDetector.reset_with_peak,
          hst, hpk, if_true]⟩)
    · exact Or.inl (by simp only [DoubleTopDetector.handle_swing_point, hst, hpk,
        Bool.false_eq_true, if_false])
  case peakFound =>
    rcases hb sp.is_peak with hpk | hpk
    · exact Or.inl (by simp [DoubleTopDetector.handle_swing_point, hst, hpk])
    · cases hp1 : d.peak1 with
      | none => exact Or.inl (by simp [DoubleTopDetector.handle_swing_point, hst, hpk, hp1])
      | some p1 =>
        by_cases hpb : (p1.price - sp.price) / p1.price * 100 ≥ d.config.min_pullback_pct
        · cases ht : d.trough_low with
          | none =>
            refine Or.inr (Or.inr (Or.inl ⟨hpk, Or.inl rfl, ⟨p1, rfl, hpb⟩, ?_, ?_⟩))
            · intro t' hth
              cases hth
            · simp [DoubleTopDetector.handle_swing_point, hst, hpk, hp1, ht, hpb]
          | some t =>
            by_cases hlt : sp.price < t
            · refine Or.inr (Or.inr (Or.inl ⟨hpk, Or.inl rfl, ⟨p1, rfl, hpb⟩, ?_, ?_⟩))
              · intro t' hth
                cases hth
                exact hlt
              · simp [DoubleTopDetector.handle_swing_point, hst, hpk, hp1, ht, hpb, hlt]
            · exact Or.inl (by
                simp [DoubleTopDetector.handle_swing_point, hst, hpk, hp1, ht, hpb, hlt])
        · exact Or.inl (by simp [DoubleTopDetector.handle_swing_point, hst, hpk, hp1, hpb])
  case troughFound =>
    rcases hb sp.is_peak with hpk | hpk
    · cases hp1 : d.peak1 with
      | none => exact Or.inl (by simp [DoubleTopDetector.handle_swing_point, hst, hpk, hp1])
      | some p1 =>
        by_cases hm : d.peaks_match p1.price sp.price = true
        · refine Or.inr (Or.inr (Or.inr ⟨hpk, Or.inl rfl, ⟨p1, rfl, hm⟩, ?_⟩))
          simp [DoubleTopDetector.handle_swing_point, hst, hpk, hp1, hm]
        · exact Or.inl (by
            simp [DoubleTopDetector.handle_swing_point, hst, hpk, hp1]
            intro h
            exact absurd h hm)
    · cases hp1 : d.peak1 with
      | none => exact Or.inl (by simp [DoubleTopDetector.handle_swing_point, hst, hpk, hp1])
      | some p1 =>
        by_cases hpb : (p1.price - sp.price) / p1.price * 100 ≥ d.config.min_pullback_pct
        · cases ht : d.trough_low with
          | none =>
            refine Or.inr (Or.inr (Or.inl ⟨hpk, Or.inr (Or.inl rfl), ⟨p1, rfl, hpb⟩, ?_, ?_⟩))
            · intro t' hth
              cases hth
            · simp [DoubleTopDetector.handle_swing_point, hst, hpk, hp1, ht, hpb]
          | some t =>
            by_cases hlt : sp.price < t
            · refine Or.inr (Or.inr (Or.inl ⟨hpk, Or.inr (Or.inl rfl), ⟨p1, rfl, hpb⟩, ?_, ?_⟩))
              · intro t' hth
                cases hth
                exact hlt
              · simp [DoubleTopDetector.handle_swing_point, hst, hpk, hp1, ht, hpb, hlt]
            · exact Or.inl (by
                simp [DoubleTopDetector.handle_swing_point, hst, hpk, hp1, ht, hpb, hlt])
        · exact Or.inl (by simp [DoubleTopDetector.handle_swing_point, hst, hpk, hp1, hpb])
  case forming =>
    rcases hb sp.is_peak with hpk | hpk
    · cases hp1 : d.peak1 with
      | none => exact Or.inl (by simp [DoubleTopDetector.handle_swing_point, hst, hpk, hp1])
      | some p1 =>
        by_cases hm : d.peaks_match p1.price sp.price = true
        · refine Or.inr (Or.inr (Or.inr ⟨hpk, Or.inr rfl, ⟨p1, rfl, hm⟩, ?_⟩))
          simp [DoubleTopDetector.handle_swing_point, hst, hpk, hp1, hm]
        · exact Or.inl (by
            simp [DoubleTopDetector.handle_swing_point, hst, hpk, hp1]
            intro h
            exact absurd h hm)
    · cases hp1 : d.peak1 with
      | none => exact Or.inl (by simp [DoubleTopDetector.handle_swing_point, hst, hpk, hp1])
      | some p1 =>
        by_cases hpb : (p1.price - sp.price) / p1.price * 100 ≥ d.config.min_pullback_pct
        · cases ht : d.trough_low with
          | none =>
            refine Or.inr (Or.inr (Or.inl ⟨hpk, Or.inr (Or.inr rfl), ⟨p1, rfl, hpb⟩, ?_, ?_⟩))
            · intro t' hth
              cases hth
            · simp [DoubleTopDetector.handle_swing_point, hst, hpk, hp1, ht, hpb]
          | some t =>
            by_cases hlt : sp.price < t
            · refine Or.inr (Or.inr (Or.inl ⟨hpk, Or.inr (Or.inr rfl), ⟨p1, rfl, hpb⟩, ?_, ?_⟩))
              · intro t' hth
                cases hth
                exact hlt
              · simp [DoubleTopDetector.handle_swing_point, hst, hpk, hp1, ht, hpb, hlt]
            · exact Or.inl (by
                simp [DoubleTopDetector.handle_swing_point, hst, hpk, hp1, ht, hpb, hlt])
        · exact Or.inl (by simp [DoubleTopDetector.handle_swing_point, hst, hpk, hp1, hpb])

/-- C10: in state PeakFound an arriving peak swing point is ignored entirely
(the detector is returned unchanged, field for field); `peak1` is replaced
only by a peak swing point arriving in Watching, Confirmed or Invalidated
(and then the new `peak1` carries the swing price and the current candle
counter, with the state moving to PeakFound); `peak2` is set to a new second
peak only in TroughFound or Forming — any other change to `peak2` is the
clearing performed when a fresh pattern starts from Watching, Confirmed or
Invalidated. -/
theorem c10_peak_swing_point_dispatch (d : DoubleTopDetector) (sp : SwingPoint) :
    (d.state = .peakFound → sp.is_peak = true → d.handle_swing_point sp = d) ∧
    ((d.handle_swing_point sp).peak1 ≠ d.peak1 →
      sp.is_peak = true ∧
      (d.state = .watching ∨ d.state = .confirmed ∨ d.state = .invalidated) ∧
      (d.handle_swing_point sp).peak1 =
        some { price := sp.price, candle_idx := d.candle_count } ∧
      (d.handle_swing_point sp).state = .peakFound) ∧
    ((d.handle_swing_point sp).peak2 ≠ d.peak2 →
      sp.is_peak = true ∧
      ((d.state = .troughFound ∨ d.state = .forming) ∧
        (d.handle_swing_point sp).peak2 =
          some { price := sp.price, candle_idx := d.candle_count } ∨
       (d.state = .watching ∨ d.state = .confirmed ∨ d.state = .invalidated) ∧
        (d.handle_swing_point sp).peak2 = none)) := by
  refine ⟨?_, ?_, ?_⟩
  · intro hst hpk
    rcases hsp_cases d sp with h | ⟨hpk2, hstOr, heq⟩ | ⟨hpk2, hstOr, _, _, heq⟩ |
      ⟨hpk2, hstOr, _, heq⟩
    · exact h
    · simp [hst] at hstOr
    · rw [hpk] at hpk2
      cases hpk2
    · simp [hst] at hstOr
  · intro hne
    rcases hsp_cases d sp with h | ⟨hpk2, hstOr, heq⟩ | ⟨hpk2, hstOr, _, _, heq⟩ |
      ⟨hpk2, hstOr, _, heq⟩
    · rw [h] at hne
      exact absurd rfl hne
    · exact ⟨hpk2, hstOr, by rw [heq], by rw [heq]⟩
    · rw [heq] at hne
      exact absurd rfl hne
    · rw [heq] at hne
      exact absurd rfl hne
  · intro hne
    rcases hsp_cases d sp with h | ⟨hpk2, hstOr, heq⟩ | ⟨hpk2, hstOr, _, _, heq⟩ |
      ⟨hpk2, hstOr, _, heq⟩
    · rw [h] at hne
      exact absurd rfl hne
    · exact ⟨hpk2, Or.inr ⟨hstOr, by rw [heq]⟩⟩
    · rw [heq] at hne
      exact absurd rfl hne
    · exact ⟨hpk2, Or.inl ⟨hstOr, by rw [heq]⟩⟩

/-- C10 witness: the hand-built PeakFound state `wPF` and a concrete peak
swing point at 110 — the call returns the state unchanged. -/
theorem c10_peak_swing_point_dispatch_witness :
    wPF.state = .peakFound ∧
    wPF.handle_swing_point { price := 110, is_peak := true } = wPF :=
  ⟨rfl, (c10_peak_swing_point_dispatch wPF { price := 110, is_peak := true }).1 rfl rfl⟩

/-- Neckline tightening changes no field other than `trough_low`. -/
theorem tighten_frame (d : DoubleTopDetector) (c : Candle) :
    (d.tighten_neckline c).coin = d.coin ∧
    (d.tighten_neckline c).config = d.config ∧
    (d.tighten_neckline c).state = d.state ∧
    (d.tighten_neckline c).atr = d.atr ∧
    (d.tighten_neckline c).swing = d.swing ∧
    (d.tighten_neckline c).candles = d.candles ∧
    (d.tighten_neckline c).candle_count = d.candle_count ∧
    (d.tighten_neckline c).peak1 = d.peak1 ∧
    (d.tighten_neckline c).peak2 = d.peak2 ∧
    (d.tighten_neckline c).early_warning_sent = d.early_warning_sent := by
  rw [DoubleTopDetector.tighten_neckline]
  split <;> (try split) <;> (try split) <;>
    exact ⟨rfl, rfl, rfl, rfl, rfl, rfl, rfl, rfl, rfl, rfl⟩

/-- While the trough is actively tracked, tightening yields exactly the
candle low when it undercuts with `peak2` absent, and the old trough
otherwise. -/
theorem tighten_trough (d : DoubleTopDetector) (c : Candle) (t : ℚ)
    (hst : d.state = .troughFound ∨ d.state = .forming) (ht : d.trough_low = some t) :
    (d.tighten_neckline c).trough_low =
      some (if c.low < t ∧ d.peak2 = none then c.low else t) := by
  rw [DoubleTopDetector.tighten_neckline, if_pos hst, ht]
  by_cases hu : c.low < t ∧ d.peak2 = none
  · simp [hu]
  · simp [hu, ht]

/-- The early-warning / confirmation dispatch changes no field other than
`state` and `early_warning_sent`: in particular the trough, the peaks, the
candle counter and the coin survive `check_transitions_rest` exactly as the
tightening left them. -/
theorem ctr_frame (d : DoubleTopDetector) (c : Candle) (atr : ℚ) :
    (d.check_transitions_rest c atr).1.coin = d.coin ∧
    (d.check_transitions_rest c atr).1.config = d.config ∧
    (d.check_transitions_rest c atr).1.atr = d.atr ∧
    (d.check_transitions_rest c atr).1.swing = d.swing ∧
    (d.check_transitions_rest c atr).1.candles = d.candles ∧
    (d.check_transitions_rest c atr).1.candle_count = d.candle_count ∧
    (d.check_transitions_rest c atr).1.peak1 = d.peak1 ∧
    (d.check_transitions_rest c atr).1.peak2 = d.peak2 ∧
    (d.check_transitions_rest c atr).1.trough_low = (d.tighten_neckline c).trough_low := by
  obtain ⟨h1, h2, h3, h4, h5, h6, h7, h8, h9, h10⟩ := tighten_frame d c
  simp only [DoubleTopDetector.check_transitions_rest]
  split
  · split
    · split
      · exact ⟨h1, h2, h4, h5, h6, h7, h8, h9, rfl⟩
      · exact ⟨h1, h2, h4, h5, h6, h7, h8, h9, rfl⟩
    · exact ⟨h1, h2, h4, h5, h6, h7, h8, h9, rfl⟩
  · split
    · exact ⟨h1, h2, h4, h5, h6, h7, h8, h9, rfl⟩
    · exact ⟨h1, h2, h4, h5, h6, h7, h8, h9, rfl⟩
  · exact ⟨h1, h2, h4, h5, h6, h7, h8, h9, rfl⟩

/-- While the trough is actively tracked, `handle_swing_point` preserves the
state and can only keep or strictly lower the tracked trough. -/
theorem hsp_trough_mono (d : DoubleTopDetector) (sp : SwingPoint) (t : ℚ)
    (hst : d.state = .troughFound ∨ d.state = .forming) (ht : d.trough_low = some t) :
    (d.handle_swing_point sp).state = d.state ∧
    ∃ t', (d.handle_swing_point sp).trough_low = some t' ∧ t' ≤ t := by
  rcases hsp_cases d sp with h | ⟨hpk2, hstOr, heq⟩ | ⟨hpk2, hstOr, _, hlow, heq⟩ |
    ⟨hpk2, hstOr, _, heq⟩
  · rw [h]
    exact ⟨rfl, t, ht, le_refl t⟩
  · rcases hst with h | h <;> rcases hstOr with h2 | h2 | h2 <;> rw [h] at h2 <;> cases h2
  · rw [heq]
    have hpf : ¬ d.state = .peakFound := by
      rcases hst with h | h <;> rw [h] <;> simp
    refine ⟨by simp [if_neg hpf], sp.price, by simp, le_of_lt (hlow t ht)⟩
  · rw [heq]
    exact ⟨rfl, t, ht, le_refl t⟩

/-- Invalidation dichotomy of `check_state_transitions`: while `peak1` is
tracked, a candle high above the fail level or an excessive distance since
`peak1` sets the state to Invalidated (all other fields intact, no alert);
otherwise the tail dispatch runs. -/
theorem cst_cases (d : DoubleTopDetector) (c : Candle) (atr : ℚ) :
    (∃ p1, d.peak1 = some p1 ∧
      (c.high > p1.price * (1 + d.config.peak_fail_pct / 100) ∨
        d.candle_count - p1.candle_idx > d.config.max_peak_distance) ∧
      d.check_state_transitions c atr = ({ d with state := .invalidated }, none)) ∨
    ((∀ p1, d.peak1 = some p1 →
        ¬ c.high > p1.price * (1 + d.config.peak_fail_pct / 100) ∧
        ¬ d.candle_count - p1.candle_idx > d.config.max_peak_distance) ∧
      d.check_state_transitions c atr = d.check_transitions_rest c atr) := by
  cases hp1 : d.peak1 with
  | none =>
    refine Or.inr ⟨?_, ?_⟩
    · intro p1 h
      cases h
    · simp only [DoubleTopDetector.check_state_transitions, hp1]
  | some p1 =>
    by_cases hhi : c.high > p1.price * (1 + d.config.peak_fail_pct / 100)
    · refine Or.inl ⟨p1, rfl, Or.inl hhi, ?_⟩
      simp only [DoubleTopDetector.check_state_transitions, hp1, if_pos hhi]
    · by_cases hdist : d.candle_count - p1.candle_idx > d.config.max_peak_distance
      · refine Or.inl ⟨p1, rfl, Or.inr hdist, ?_⟩
        simp only [DoubleTopDetector.check_state_transitions, hp1, if_neg hhi, if_pos hdist]
      · refine Or.inr ⟨?_, ?_⟩
        · intro p1' h
          cases h
          exact ⟨hhi, hdist⟩
        · simp only [DoubleTopDetector.check_state_transitions, hp1, if_neg hhi, if_neg hdist]

/-- While the trough is actively tracked, a full `check_state_transitions`
call keeps the trough or lowers it, never clears or raises it. -/
theorem cst_trough_mono (d : DoubleTopDetector) (c : Candle) (atr : ℚ) (t : ℚ)
    (hst : d.state = .troughFound ∨ d.state = .forming) (ht : d.trough_low = some t) :
    ∃ t', (d.check_state_transitions c atr).1.trough_low = some t' ∧ t' ≤ t := by
  rcases cst_cases d c atr with ⟨p1, _, _, heq⟩ | ⟨_, heq⟩
  · rw [heq]
    exact ⟨t, ht, le_refl t⟩
  · rw [heq]
    have h9 := (ctr_frame d c atr).2.2.2.2.2.2.2.2
    rw [h9, tighten_trough d c t hst ht]
    by_cases hu : c.low < t ∧ d.peak2 = none
    · exact ⟨c.low, by rw [if_pos hu], le_of_lt hu.1⟩
    · exact ⟨t, by rw [if_neg hu], le_refl t⟩

/-- Anatomy of a successful `process_candle` call: either the call early-outs
(warmup gate or ATR not yet available) leaving all pattern-tracking fields
unchanged and the counter bumped, or it reaches the transition logic: some
base state `d0` that agrees with `d` on every pattern-tracking field (counter
bumped) is optionally passed through `handle_swing_point` and then through
`check_state_transitions`, whose result is returned. -/
theorem process_candle_anatomy (d : DoubleTopDetector) (c : Candle)
    (d' : DoubleTopDetector) (a : Option Alert) (hp : d.process_candle c = .ok (d', a)) :
    (a = none ∧ d'.state = d.state ∧ d'.peak1 = d.peak1 ∧ d'.trough_low = d.trough_low ∧
      d'.peak2 = d.peak2 ∧ d'.early_warning_sent = d.early_warning_sent ∧
      d'.candle_count = d.candle_count + 1 ∧ d'.config = d.config ∧ d'.coin = d.coin) ∨
    (∃ (atrv : ℚ) (d0 dmid : DoubleTopDetector),
      ¬ d.candle_count + 1 < d.config.warmup_candles ∧
      d0.state = d.state ∧ d0.peak1 = d.peak1 ∧ d0.trough_low = d.trough_low ∧
      d0.peak2 = d.peak2 ∧ d0.early_warning_sent = d.early_warning_sent ∧
      d0.candle_count = d.candle_count + 1 ∧ d0.config = d.config ∧ d0.coin = d.coin ∧
      (dmid = d0 ∨ ∃ sp, dmid = d0.handle_swing_point sp) ∧
      (d', a) = dmid.check_state_transitions c atrv) := by
  simp only [DoubleTopDetector.process_candle] at hp
  split at hp
  · exact Except.noConfusion hp
  · rename_i atrres atr' atrOpt heq
    split at hp
    · rename_i hwarm
      simp only [Except.ok.injEq, Prod.mk.injEq] at hp
      obtain ⟨hd, ha⟩ := hp
      refine Or.inl ⟨ha.symm, ?_, ?_, ?_, ?_, ?_, ?_, ?_, ?_⟩ <;> rw [← hd]
    · rename_i hwarm
      split at hp
      · simp only [Except.ok.injEq, Prod.mk.injEq] at hp
        obtain ⟨hd, ha⟩ := hp
        refine Or.inl ⟨ha.symm, ?_, ?_, ?_, ?_, ?_, ?_, ?_, ?_⟩ <;> rw [← hd]
      · rename_i atrv
        split at hp
        · rename_i swres sw' sp hsw
          simp only [Except.ok.injEq] at hp
          exact Or.inr ⟨atrv,
            { d with candle_count := d.candle_count + 1,
                     candles := if (d.candles ++ [c]).length > d.config.history_window
                                then List.drop 1 (d.candles ++ [c]) else d.candles ++ [c],
                     atr := atr', swing := (d.swing.update c atrv).1 },
            _, hwarm, rfl, rfl, rfl, rfl, rfl, rfl, rfl, rfl, Or.inr ⟨sp, rfl⟩, hp.symm⟩
        · rename_i swres sw' hsw
          simp only [Except.ok.injEq] at hp
          exact Or.inr ⟨atrv,
            { d with candle_count := d.candle_count + 1,
                     candles := if (d.candles ++ [c]).length > d.config.history_window
                                then List.drop 1 (d.candles ++ [c]) else d.candles ++ [c],
                     atr := atr', swing := (d.swing.update c atrv).1 },
            _, hwarm, rfl, rfl, rfl, rfl, rfl, rfl, rfl, rfl, Or.inl rfl, hp.symm⟩

/-- C5: while a trough is actively tracked (TroughFound/Forming), (i) a full
`process_candle` step leaves the tracked trough equal or strictly lower —
never cleared, never raised; (ii) a trough swing point is recorded over the
tracked trough exactly when its pullback from `peak1` suffices and it is
strictly lower; (iii) in the transition tail, a candle low undercutting the
tracked trough lowers it to that low exactly when `peak2` is absent. -/
theorem c5_tracked_trough_only_decreases (d : DoubleTopDetector) (c : Candle)
    (sp : SwingPoint) (p1 : PeakInfo) (atr t : ℚ)
    (hst : d.state = .troughFound ∨ d.state = .forming) (ht : d.trough_low = some t) :
    (∀ d' a, d.process_candle c = .ok (d', a) →
      ∃ t', d'.trough_low = some t' ∧ t' ≤ t) ∧
    (d.peak1 = some p1 → sp.is_peak = false →
      (d.handle_swing_point sp).trough_low =
        some (if (p1.price - sp.price) / p1.price * 100 ≥ d.config.min_pullback_pct ∧
                 sp.price < t
              then sp.price else t)) ∧
    ((d.check_transitions_rest c atr).1.trough_low =
      some (if c.low < t ∧ d.peak2 = none then c.low else t)) := by
  refine ⟨?_, ?_, ?_⟩
  · intro d' a hp
    rcases process_candle_anatomy d c d' a hp with
      ⟨_, _, _, htr, _⟩ |
      ⟨atrv, d0, dmid, _, h0st, h0p1, h0tr, h0p2, h0fl, h0cnt, h0cfg, h0coin, hmid, hcst⟩
    · exact ⟨t, by rw [htr, ht], le_refl t⟩
    · have hst0 : d0.state = .troughFound ∨ d0.state = .forming := by rw [h0st]; exact hst
      have ht0 : d0.trough_low = some t := by rw [h0tr]; exact ht
      have hmid2 : dmid.state = d0.state ∧ ∃ t1, dmid.trough_low = some t1 ∧ t1 ≤ t := by
        rcases hmid with rfl | ⟨sp', rfl⟩
        · exact ⟨rfl, t, ht0, le_refl t⟩
        · obtain ⟨hs, t1, h1, h2⟩ := hsp_trough_mono d0 sp' t hst0 ht0
          exact ⟨hs, t1, h1, h2⟩
      obtain ⟨hsmid, t1, htr1, hle1⟩ := hmid2
      have hstm : dmid.state = .troughFound ∨ dmid.state = .forming := by
        rw [hsmid]; exact hst0
      obtain ⟨t', htr', hle'⟩ := cst_trough_mono dmid c atrv t1 hstm htr1
      refine ⟨t', ?_, le_trans hle' hle1⟩
      rw [show d' = (dmid.check_state_transitions c atrv).1 from congrArg Prod.fst hcst]
      exact htr'
  · intro hp1 hsp
    by_cases hpb : (p1.price - sp.price) / p1.price * 100 ≥ d.config.min_pullback_pct
    · by_cases hlt : sp.price < t
      · rcases hst with hst | hst <;>
          simp [DoubleTopDetector.handle_swing_point, hst, hsp, hp1, ht, hpb, hlt]
      · rcases hst with hst | hst <;>
          simp [DoubleTopDetector.handle_swing_point, hst, hsp, hp1, ht, hpb, hlt]
    · rcases hst with hst | hst <;>
        simp [DoubleTopDetector.handle_swing_point, hst, hsp, hp1, ht, hpb]
  · rw [(ctr_frame d c atr).2.2.2.2.2.2.2.2, tighten_trough d c t hst ht]

/-- C5 witness: the hand-built Forming state `wForm` (trough 150) fed the
breakdown candle — the trough survives, not raised. -/
theorem c5_tracked_trough_only_decreases_witness :
    (wForm.state = .troughFound ∨ wForm.state = .forming) ∧
    wForm.trough_low = some 150 ∧
    (∃ t', (getOk (wForm.process_candle wBreak) (wForm, none)).1.trough_low = some t' ∧
      t' ≤ 150) :=
  ⟨Or.inr rfl, rfl,
    (c5_tracked_trough_only_decreases wForm wBreak ⟨149, false⟩ ⟨154, 13⟩ 2 150
      (Or.inr rfl) rfl).1
      (getOk (wForm.process_candle wBreak) (wForm, none)).1
      (getOk (wForm.process_candle wBreak) (wForm, none)).2
      (by with_unfolding_all rfl)⟩

/-- While a first peak is being tracked (PeakFound/TroughFound/Forming),
`handle_swing_point` never touches `peak1`, the candle counter or the
configuration, and the state stays within the tracking trio. -/
theorem hsp_active (d : DoubleTopDetector) (sp : SwingPoint)
    (hst : d.state = .peakFound ∨ d.state = .troughFound ∨ d.state = .forming) :
    (d.handle_swing_point sp).peak1 = d.peak1 ∧
    (d.handle_swing_point sp).candle_count = d.candle_count ∧
    (d.handle_swing_point sp).config = d.config ∧
    ((d.handle_swing_point sp).state = .peakFound ∨
      (d.handle_swing_point sp).state = .troughFound ∨
      (d.handle_swing_point sp).state = .forming) := by
  rcases hsp_cases d sp with h | ⟨_, hstOr, heq⟩ | ⟨_, _, _, _, heq⟩ | ⟨_, _, _, heq⟩
  · rw [h]
    exact ⟨rfl, rfl, rfl, hst⟩
  · rcases hst with h | h | h <;> rcases hstOr with h2 | h2 | h2 <;> rw [h] at h2 <;> cases h2
  · rw [heq]
    refine ⟨rfl, rfl, rfl, ?_⟩
    by_cases hpf : d.state = .peakFound
    · simp [hpf]
    · simp only [if_neg hpf]
      rcases hst with h | h | h
      · exact absurd h hpf
      · exact Or.inr (Or.inl h)
      · exact Or.inr (Or.inr h)
  · rw [heq]
    exact ⟨rfl, rfl, rfl, hst⟩

/-- C1 (amended): a candle processed after warmup (ATR available) while
`peak1` is tracked in PeakFound/TroughFound/Forming, whose high exceeds the
fail level or whose distance from `peak1` exceeds `max_peak_distance`, always
ends the step in Invalidated with no alert — regardless of any swing point
handled on the same candle.  The tracked `peak1` is retained, not cleared
(see `c1_invalidation_does_not_clear_counterexample`): tracked fields are
discarded only when a later peak swing point starts a fresh pattern. -/
theorem c1_invalidation_preempts (d : DoubleTopDetector) (c : Candle) (p1 : PeakInfo)
    (a' : AtrCalculator) (v : ℚ)
    (hst : d.state = .peakFound ∨ d.state = .troughFound ∨ d.state = .forming)
    (hp1 : d.peak1 = some p1)
    (hwarm : ¬ d.candle_count + 1 < d.config.warmup_candles)
    (hatr : d.atr.update c = .ok (a', some v))
    (hcond : c.high > p1.price * (1 + d.config.peak_fail_pct / 100) ∨
      d.candle_count + 1 - p1.candle_idx > d.config.max_peak_distance) :
    ∃ d', d.process_candle c = .ok (d', none) ∧ d'.state = .invalidated ∧
      d'.peak1 = some p1 := by
  simp only [DoubleTopDetector.process_candle, hatr, if_neg hwarm]
  rcases hsw : d.swing.update c v with ⟨sw', spOpt⟩
  have base_eq :
      ∀ dmid : DoubleTopDetector,
        dmid.peak1 = some p1 → dmid.candle_count = d.candle_count + 1 →
        dmid.config = d.config →
        dmid.check_state_transitions c v = ({ dmid with state := .invalidated }, none) := by
    intro dmid h1 h2 h3
    rcases cst_cases dmid c v with ⟨q1, hq1, _, heq⟩ | ⟨hneg, _⟩
    · exact heq
    · exfalso
      obtain ⟨hn1, hn2⟩ := hneg p1 h1
      rw [h2, h3] at hn2
      rw [h3] at hn1
      rcases hcond with h | h
      · exact hn1 h
      · exact hn2 h
  cases spOpt with
  | none =>
    show ∃ d',
      Except.ok ((DoubleTopDetector.check_state_transitions
        { d with candle_count := d.candle_count + 1,
                 candles := if (d.candles ++ [c]).length > d.config.history_window
                            then List.drop 1 (d.candles ++ [c]) else d.candles ++ [c],
                 atr := a', swing := sw' } c v : DoubleTopDetector × Option Alert)) =
        .ok (d', none) ∧ d'.state = .invalidated ∧ d'.peak1 = some p1
    rw [base_eq
      { d with candle_count := d.candle_count + 1,
               candles := if (d.candles ++ [c]).length > d.config.history_window
                          then List.drop 1 (d.candles ++ [c]) else d.candles ++ [c],
               atr := a', swing := sw' } hp1 rfl rfl]
    exact ⟨_, rfl, rfl, hp1⟩
  | some sp =>
    obtain ⟨hpk1, hcnt, hcfg, _⟩ := hsp_active
      { d with candle_count := d.candle_count + 1,
               candles := if (d.candles ++ [c]).length > d.config.history_window
                          then List.drop 1 (d.candles ++ [c]) else d.candles ++ [c],
               atr := a', swing := sw' } sp hst
    show ∃ d',
      Except.ok ((DoubleTopDetector.check_state_transitions
        (DoubleTopDetector.handle_swing_point
          { d with candle_count := d.candle_count + 1,
                   candles := if (d.candles ++ [c]).length > d.config.history_window
                              then List.drop 1 (d.candles ++ [c]) else d.candles ++ [c],
                   atr := a', swing := sw' } sp) c v : DoubleTopDetector × Option Alert)) =
        .ok (d', none) ∧ d'.state = .invalidated ∧ d'.peak1 = some p1
    rw [base_eq _ (by rw [hpk1]; exact hp1) (by rw [hcnt]) (by rw [hcfg])]
    refine ⟨_, rfl, rfl, ?_⟩
    show (DoubleTopDetector.handle_swing_point _ sp).peak1 = some p1
    rw [hpk1]
    exact hp1

/-- C1 witness: the scenario state after candle 10 (Forming, peak1 = 102 at
candle 5) hit by candle 11 whose high 154 exceeds the fail level 153. -/
theorem c1_invalidation_preempts_witness :
    (wDA'.state = .peakFound ∨ wDA'.state = .troughFound ∨ wDA'.state = .forming) ∧
    wDA'.peak1 = some { price := 102, candle_idx := 5 } ∧
    ¬ wDA'.candle_count + 1 < wDA'.config.warmup_candles ∧
    wDA'.atr.update wC11 = .ok (⟨1, [55], some 154⟩, some 55) ∧
    wC11.high > (102 : ℚ) * (1 + wDA'.config.peak_fail_pct / 100) ∧
    ∃ d', wDA'.process_candle wC11 = .ok (d', none) ∧ d'.state = .invalidated ∧
      d'.peak1 = some { price := 102, candle_idx := 5 } :=
  ⟨Or.inr (Or.inr (by with_unfolding_all rfl)), by with_unfolding_all rfl,
    by with_unfolding_all decide, by with_unfolding_all rfl, by with_unfolding_all decide,
    c1_invalidation_preempts wDA' wC11 { price := 102, candle_idx := 5 } ⟨1, [55], some 154⟩ 55
      (Or.inr (Or.inr (by with_unfolding_all rfl))) (by with_unfolding_all rfl)
      (by with_unfolding_all decide) (by with_unfolding_all rfl)
      (Or.inl (by with_unfolding_all decide))⟩

/-- C1 counterexample to the "clears the tracked peak/trough state" part of
the claim: candle 11 of the scenario invalidates the pattern, yet the
detector still holds `peak1 = (102, 5)` and `trough_low = 97` afterwards —
invalidation changes only the state. -/
theorem c1_invalidation_does_not_clear_counterexample :
    wDA'.state = .forming ∧
    wDA'.peak1 = some { price := 102, candle_idx := 5 } ∧
    wDA'.trough_low = some 97 ∧
    wDA'.process_candle wC11 =
      .ok ((getOk (wDA'.process_candle wC11) (wDA', none)).1, none) ∧
    (getOk (wDA'.process_candle wC11) (wDA', none)).1.state = .invalidated ∧
    (getOk (wDA'.process_candle wC11) (wDA', none)).1.peak1 ≠ none ∧
    (getOk (wDA'.process_candle wC11) (wDA', none)).1.peak1 =
      some { price := 102, candle_idx := 5 } ∧
    (getOk (wDA'.process_candle wC11) (wDA', none)).1.trough_low ≠ none ∧
    (getOk (wDA'.process_candle wC11) (wDA', none)).1.trough_low = some 97 := by
  refine ⟨?_, ?_, ?_, ?_, ?_, ?_, ?_, ?_, ?_⟩
  · with_unfolding_all rfl
  · with_unfolding_all rfl
  · with_unfolding_all rfl
  · with_unfolding_all rfl
  · with_unfolding_all rfl
  · with_unfolding_all decide
  · with_unfolding_all rfl
  · with_unfolding_all decide
  · with_unfolding_all rfl

/-- Neckline tightening is a no-op while `peak2` is present. -/
theorem tighten_trough_peak2 (d : DoubleTopDetector) (c : Candle) (p2 : PeakInfo)
    (hp2 : d.peak2 = some p2) : (d.tighten_neckline c).trough_low = d.trough_low := by
  rw [DoubleTopDetector.tighten_neckline]
  split
  · cases htl : d.trough_low with
    | none => exact htl
    | some tt =>
      have hno : ¬ (c.low < tt ∧ d.peak2 = none) := by
        intro h2
        rw [hp2] at h2
        exact Option.noConfusion h2.2
      simp only [if_neg hno]
      exact htl
  · rfl

/-- C3: in state Forming with `peak1` and a tracked trough, and with neither
invalidation condition firing, `check_state_transitions` emits an alert
exactly when `peak2` is present and price-matches `peak1`, the pattern height
meets `min_pattern_height`, and the close is strictly below
`trough − breakdown_buffer·atr`; the alert is then precisely
`Confirmation(coin, trough, close)` — close-based only — and the state moves
to Confirmed. -/
theorem c3_confirmation_exactly (d : DoubleTopDetector) (c : Candle) (atr : ℚ)
    (p1 : PeakInfo) (t : ℚ)
    (hst : d.state = .forming)
    (hp1 : d.peak1 = some p1)
    (ht : d.trough_low = some t)
    (hhi : ¬ c.high > p1.price * (1 + d.config.peak_fail_pct / 100))
    (hdist : ¬ d.candle_count - p1.candle_idx > d.config.max_peak_distance) :
    (∀ d' a, d.check_state_transitions c atr = (d', some a) →
      a = .confirmation d.coin t c.close ∧ d'.state = .confirmed) ∧
    ((∃ d', d.check_state_transitions c atr = (d', some (.confirmation d.coin t c.close)) ∧
        d'.state = .confirmed) ↔
      ∃ p2, d.peak2 = some p2 ∧ d.peaks_match p1.price p2.price = true ∧
        (p1.price - t) / p1.price * 100 ≥ d.config.min_pattern_height ∧
        c.close < t - d.config.breakdown_buffer * atr) := by
  have hrest : d.check_state_transitions c atr = d.check_transitions_rest c atr := by
    rcases cst_cases d c atr with ⟨q1, hq1, hconds, _⟩ | ⟨_, heq⟩
    · rw [hp1] at hq1
      cases hq1
      rcases hconds with h | h
      · exact absurd h hhi
      · exact absurd h hdist
    · exact heq
  obtain ⟨hf1, hf2, hf3, hf4, hf5, hf6, hf7, hf8, hf9, hf10⟩ := tighten_frame d c
  have hd1st : (d.tighten_neckline c).state = .forming := by rw [hf3, hst]
  have hd1p1 : (d.tighten_neckline c).peak1 = some p1 := by rw [hf8, hp1]
  have hd1p2 : (d.tighten_neckline c).peak2 = d.peak2 := hf9
  have hpm_eq : ∀ x y : ℚ,
      (d.tighten_neckline c).peaks_match x y = d.peaks_match x y := by
    intro x y
    rw [DoubleTopDetector.peaks_match, DoubleTopDetector.peaks_match, hf2]
  have hctr : d.check_transitions_rest c atr =
      (match (d.tighten_neckline c).check_confirmation c atr with
       | some alert => ({ d.tighten_neckline c with state := .confirmed }, some alert)
       | none => (d.tighten_neckline c, none)) := by
    simp only [DoubleTopDetector.check_transitions_rest]
    rw [hd1st]
  cases hp2c : d.peak2 with
  | none =>
    -- no second peak: check_confirmation returns none, no alert is possible,
    -- and the right-hand side of the iff is false
    have hconf : (d.tighten_neckline c).check_confirmation c atr = none := by
      obtain ⟨t2, ht2⟩ : ∃ t2, (d.tighten_neckline c).trough_low = some t2 := by
        rw [tighten_trough d c t (Or.inr hst) ht]
        exact ⟨_, rfl⟩
      rw [DoubleTopDetector.check_confirmation, hd1p1, ht2, hd1p2, hp2c]
    rw [hrest, hctr, hconf]
    constructor
    · intro d' a heq
      have h2 := congrArg Prod.snd heq
      simp at h2
    · constructor
      · intro hex
        obtain ⟨d', heq, _⟩ := hex
        have h2 := congrArg Prod.snd heq
        simp at h2
      · intro hex
        obtain ⟨p2, hp2, _⟩ := hex
        cases hp2
  | some p2 =>
    have hd1t : (d.tighten_neckline c).trough_low = some t := by
      rw [tighten_trough_peak2 d c p2 hp2c, ht]
    have hd1p2' : (d.tighten_neckline c).peak2 = some p2 := by rw [hd1p2, hp2c]
    by_cases hm : d.peaks_match p1.price p2.price = true
    · by_cases hh : (p1.price - t) / p1.price * 100 < d.config.min_pattern_height
      · have hconf : (d.tighten_neckline c).check_confirmation c atr = none := by
          rw [DoubleTopDetector.check_confirmation, hd1p1, hd1t, hd1p2']
          simp only [hpm_eq, hf2, hm, Bool.not_true, Bool.false_eq_true, if_false, if_pos hh]
        rw [hrest, hctr, hconf]
        constructor
        · intro d' a heq
          have h2 := congrArg Prod.snd heq
          simp at h2
        · constructor
          · intro hex
            obtain ⟨d', heq, _⟩ := hex
            have h2 := congrArg Prod.snd heq
            simp at h2
          · intro hex
            obtain ⟨p2', hp2', _, hh', _⟩ := hex
            cases hp2'
            exact absurd hh' (not_le.mpr hh)
      · by_cases hbrk : c.close < t - d.config.breakdown_buffer * atr
        · have hconf : (d.tighten_neckline c).check_confirmation c atr =
              some (.confirmation d.coin t c.close) := by
            rw [DoubleTopDetector.check_confirmation, hd1p1, hd1t, hd1p2']
            simp only [hpm_eq, hf1, hf2, hm, Bool.not_true, Bool.false_eq_true, if_false,
              if_neg hh, if_pos hbrk]
          rw [hrest, hctr, hconf]
          constructor
          · intro d' a heq
            have h1 : ({ d.tighten_neckline c with state := PatternState.confirmed },
                some (Alert.confirmation d.coin t c.close)) = (d', some a) := heq
            injection h1 with hfst hsnd
            injection hsnd with hsnd'
            refine ⟨hsnd'.symm, ?_⟩
            rw [← hfst]
          · constructor
            · intro _
              exact ⟨p2, rfl, hm, not_lt.mp hh, hbrk⟩
            · intro _
              exact ⟨_, rfl, rfl⟩
        · have hconf : (d.tighten_neckline c).check_confirmation c atr = none := by
            rw [DoubleTopDetector.check_confirmation, hd1p1, hd1t, hd1p2']
            simp only [hpm_eq, hf2, hm, Bool.not_true, Bool.false_eq_true, if_false,
              if_neg hh, if_neg hbrk]
          rw [hrest, hctr, hconf]
          constructor
          · intro d' a heq
            have h2 := congrArg Prod.snd heq
            simp at h2
          · constructor
            · intro hex
              obtain ⟨d', heq, _⟩ := hex
              have h2 := congrArg Prod.snd heq
              simp at h2
            · intro hex
              obtain ⟨p2', hp2', _, _, hbrk'⟩ := hex
              cases hp2'
              exact absurd hbrk' hbrk
    · have hconf : (d.tighten_neckline c).check_confirmation c atr = none := by
        rw [DoubleTopDetector.check_confirmation, hd1p1, hd1t, hd1p2']
        have hm' : d.peaks_match p1.price p2.price = false := by
          simpa using hm
        simp only [hpm_eq, hm', Bool.not_false, if_true]
      rw [hrest, hctr, hconf]
      constructor
      · intro d' a heq
        have h2 := congrArg Prod.snd heq
        simp at h2
      · constructor
        · intro hex
          obtain ⟨d', heq, _⟩ := hex
          have h2 := congrArg Prod.snd heq
          simp at h2
        · intro hex
          obtain ⟨p2', hp2', hm'', _⟩ := hex
          cases hp2'
          exact absurd hm'' hm

/-- C3 witness: the hand-built Forming state `wForm` (peaks 154/154, neckline
150) and the breakdown candle closing at 149: the iff is discharged at a
concrete input where the confirmation actually fires. -/
theorem c3_confirmation_exactly_witness :
    wForm.state = .forming ∧
    wForm.peak1 = some { price := 154, candle_idx := 13 } ∧
    wForm.trough_low = some 150 ∧
    (getOk (wForm.process_candle wBreak) (wForm, none)).2 =
      some (.confirmation "BTC" 150 149) ∧
    ((∃ d', wForm.check_state_transitions wBreak 2 =
        (d', some (.confirmation wForm.coin 150 wBreak.close)) ∧ d'.state = .confirmed) ↔
      ∃ p2, wForm.peak2 = some p2 ∧ wForm.peaks_match 154 p2.price = true ∧
        ((154 : ℚ) - 150) / 154 * 100 ≥ wForm.config.min_pattern_height ∧
        wBreak.close < 150 - wForm.config.breakdown_buffer * 2) :=
  ⟨rfl, rfl, rfl, by with_unfolding_all rfl,
    (c3_confirmation_exactly wForm wBreak 2 { price := 154, candle_idx := 13 } 150 rfl rfl rfl
      (by with_unfolding_all decide) (by with_unfolding_all decide)).2⟩

/-- `handle_swing_point` either leaves the early-warning flag alone, or clears
it as part of installing a fresh `peak1` (state PeakFound, `peak1` stamped
with the current counter). -/
theorem hsp_flag (d : DoubleTopDetector) (sp : SwingPoint) :
    (d.handle_swing_point sp).early_warning_sent = d.early_warning_sent ∨
    ((d.handle_swing_point sp).early_warning_sent = false ∧
      (d.handle_swing_point sp).state = .peakFound ∧
      ∃ pr, (d.handle_swing_point sp).peak1 =
        some { price := pr, candle_idx := d.candle_count }) := by
  rcases hsp_cases d sp with h | ⟨_, _, heq⟩ | ⟨_, _, _, _, heq⟩ | ⟨_, _, _, heq⟩
  · rw [h]
    exact Or.inl rfl
  · rw [heq]
    exact Or.inr ⟨rfl, rfl, sp.price, rfl⟩
  · rw [heq]
    exact Or.inl rfl
  · rw [heq]
    exact Or.inl rfl

/-- `check_state_transitions` never touches `peak1` or the candle counter. -/
theorem cst_peak1_count (d : DoubleTopDetector) (c : Candle) (atr : ℚ) :
    (d.check_state_transitions c atr).1.peak1 = d.peak1 ∧
    (d.check_state_transitions c atr).1.candle_count = d.candle_count := by
  rcases cst_cases d c atr with ⟨_, _, _, heq⟩ | ⟨_, heq⟩
  · rw [heq]
    exact ⟨rfl, rfl⟩
  · rw [heq]
    exact ⟨(ctr_frame d c atr).2.2.2.2.2.2.1, (ctr_frame d c atr).2.2.2.2.2.1⟩

/-- The transition dispatch can only set the early-warning flag (when the
early warning fires), never clear it. -/
theorem cst_flag (d : DoubleTopDetector) (c : Candle) (atr : ℚ) :
    (d.check_state_transitions c atr).1.early_warning_sent = d.early_warning_sent ∨
    (d.check_state_transitions c atr).1.early_warning_sent = true := by
  rcases cst_cases d c atr with ⟨_, _, _, heq⟩ | ⟨_, heq⟩
  · rw [heq]
    exact Or.inl rfl
  · rw [heq]
    have h10 := (tighten_frame d c).2.2.2.2.2.2.2.2.2
    simp only [DoubleTopDetector.check_transitions_rest]
    split
    · split
      · split
        · exact Or.inr rfl
        · exact Or.inl h10
      · exact Or.inl h10
    · split
      · exact Or.inl h10
      · exact Or.inl h10
    · exact Or.inl h10

/-- `check_early_warning` only ever returns EarlyWarning alerts. -/
theorem cew_shape (d : DoubleTopDetector) (c : Candle) (a : Alert)
    (h : d.check_early_warning c = some a) :
    ∃ pk cur, a = .earlyWarning d.coin pk cur := by
  rw [DoubleTopDetector.check_early_warning] at h
  split at h
  case h_2 => exact Option.noConfusion h
  case h_1 p1 t heq1 heq2 =>
    simp only at h
    by_cases h1 : (p1.price - t) / p1.price * 100 < d.config.min_pattern_height
    · rw [if_pos h1] at h
      exact Option.noConfusion h
    · rw [if_neg h1] at h
      by_cases h2c : |p1.price - c.close| / p1.price * 100 > d.config.approach_threshold
      · rw [if_pos h2c] at h
        exact Option.noConfusion h
      · rw [if_neg h2c] at h
        by_cases h3 : (if d.candles.length > d.config.trend_lookback then
            decide (c.close ≤ (Option.map Candle.close
              (d.candles.get? (d.candles.length - d.config.trend_lookback - 1))).getD 0)
          else false) = true
        · rw [if_pos h3] at h
          exact Option.noConfusion h
        · rw [if_neg h3] at h
          by_cases h4 : c.high > p1.price * (1 + d.config.peak_fail_pct / 100)
          · rw [if_pos h4] at h
            exact Option.noConfusion h
          · rw [if_neg h4] at h
            injection h with h2
            exact ⟨_, _, h2.symm⟩

/-- `check_confirmation` only ever returns Confirmation alerts. -/
theorem ccf_shape (d : DoubleTopDetector) (c : Candle) (atr : ℚ) (a : Alert)
    (h : d.check_confirmation c atr = some a) :
    ∃ neck brk, a = .confirmation d.coin neck brk := by
  rw [DoubleTopDetector.check_confirmation] at h
  split at h
  case h_2 => exact Option.noConfusion h
  case h_1 p1 t p2 heq1 heq2 heq3 =>
    simp only at h
    by_cases h1 : (!d.peaks_match p1.price p2.price) = true
    · rw [if_pos h1] at h
      exact Option.noConfusion h
    · rw [if_neg h1] at h
      by_cases h2c : (p1.price - t) / p1.price * 100 < d.config.min_pattern_height
      · rw [if_pos h2c] at h
        exact Option.noConfusion h
      · rw [if_neg h2c] at h
        by_cases h3 : c.close < t - d.config.breakdown_buffer * atr
        · rw [if_pos h3] at h
          injection h with h2
          exact ⟨_, _, h2.symm⟩
        · rw [if_neg h3] at h
          exact Option.noConfusion h

/-- An EarlyWarning emitted by `check_state_transitions` implies the flag was
clear and the state TroughFound before the call, and the flag is set by it. -/
theorem cst_ew (d : DoubleTopDetector) (c : Candle) (atr : ℚ) (cn : String) (pk cur : ℚ)
    (h : (d.check_state_transitions c atr).2 = some (.earlyWarning cn pk cur)) :
    d.early_warning_sent = false ∧ d.state = .troughFound ∧
    (d.check_state_transitions c atr).1.early_warning_sent = true := by
  obtain ⟨f1, f2, f3, f4, f5, f6, f7, f8, f9, f10⟩ := tighten_frame d c
  rcases cst_cases d c atr with ⟨_, _, _, heq⟩ | ⟨_, heq⟩
  · rw [heq] at h
    exact Option.noConfusion h
  · rw [heq] at h ⊢
    simp only [DoubleTopDetector.check_transitions_rest] at h ⊢
    split at h
    · rename_i hstEq
      split at h
      · rename_i hflag
        split at h
        · rename_i alert heqc
          refine ⟨?_, ?_, ?_⟩
          · rw [← f10]
            simpa using hflag
          · rw [← f3]
            exact hstEq
          · rw [if_pos hflag]
        · exact Option.noConfusion h
      · exact Option.noConfusion h
    · rename_i hstEq
      split at h
      · rename_i alert heqc
        obtain ⟨neck, brk, hshape⟩ := ccf_shape _ c atr alert heqc
        rw [hshape] at h
        injection h with h2
        exact Alert.noConfusion h2
      · exact Option.noConfusion h
    · exact Option.noConfusion h

/-- `handle_swing_point` never changes the candle counter. -/
theorem hsp_count (d : DoubleTopDetector) (sp : SwingPoint) :
    (d.handle_swing_point sp).candle_count = d.candle_count := by
  rcases hsp_cases d sp with h | ⟨_, _, heq⟩ | ⟨_, _, _, _, heq⟩ | ⟨_, _, _, heq⟩ <;>
    rw [‹d.handle_swing_point sp = _›]

/-- A step that emits an EarlyWarning starts with the flag clear and ends
with it set. -/
theorem ew_step_flags (d : DoubleTopDetector) (c : Candle) (d' : DoubleTopDetector)
    (cn : String) (pk cur : ℚ)
    (hp : d.process_candle c = .ok (d', some (.earlyWarning cn pk cur))) :
    d.early_warning_sent = false ∧ d'.early_warning_sent = true := by
  rcases process_candle_anatomy d c d' _ hp with ⟨ha, _⟩ |
    ⟨atrv, d0, dmid, _, h0st, _, _, _, h0fl, _, _, _, hmid, hcst⟩
  · exact Option.noConfusion ha
  · have h2 : (dmid.check_state_transitions c atrv).2 = some (.earlyWarning cn pk cur) := by
      rw [← hcst]
    obtain ⟨hflagmid, hstmid, hfl'⟩ := cst_ew dmid c atrv cn pk cur h2
    have hd' : d' = (dmid.check_state_transitions c atrv).1 := congrArg Prod.fst hcst
    constructor
    · rcases hmid with rfl | ⟨sp, rfl⟩
      · rw [← h0fl]
        exact hflagmid
      · rcases hsp_flag d0 sp with hpres | ⟨_, hstpf, _⟩
        · rw [← h0fl, ← hpres]
          exact hflagmid
        · rw [hstpf] at hstmid
          exact PatternState.noConfusion hstmid
    · rw [hd']
      exact hfl'

/-- A step across which the early-warning flag goes from set to clear has
installed a fresh `peak1`, stamped with the step's own candle counter. -/
theorem flag_drop_step (d : DoubleTopDetector) (c : Candle) (d' : DoubleTopDetector)
    (out : Option Alert) (hp : d.process_candle c = .ok (d', out))
    (hpre : d.early_warning_sent = true) (hpost : d'.early_warning_sent = false) :
    ∃ pr, d'.peak1 = some { price := pr, candle_idx := d'.candle_count } := by
  rcases process_candle_anatomy d c d' _ hp with ⟨_, _, _, _, _, hfl, _⟩ |
    ⟨atrv, d0, dmid, _, h0st, h0p1, h0tr, h0p2, h0fl, h0cnt, _, _, hmid, hcst⟩
  · rw [hpre] at hfl
    rw [hfl] at hpost
    exact Bool.noConfusion hpost
  · have hd' : d' = (dmid.check_state_transitions c atrv).1 := congrArg Prod.fst hcst
    have hmidflag : dmid.early_warning_sent = false := by
      rcases cst_flag dmid c atrv with hsame | htrue
      · rw [← hsame, ← hd']
        exact hpost
      · rw [← hd'] at htrue
        rw [htrue] at hpost
        exact Bool.noConfusion hpost
    rcases hmid with rfl | ⟨sp, rfl⟩
    · rw [h0fl, hpre] at hmidflag
      exact Bool.noConfusion hmidflag
    · rcases hsp_flag d0 sp with hpres | ⟨_, _, pr, hpk⟩
      · rw [hpres, h0fl, hpre] at hmidflag
        exact Bool.noConfusion hmidflag
      · refine ⟨pr, ?_⟩
        have hcount : d'.candle_count = d0.candle_count := by
          rw [hd', (cst_peak1_count _ c atrv).2, hsp_count]
        have hpk1 : d'.peak1 = (d0.handle_swing_point sp).peak1 := by
          rw [hd', (cst_peak1_count _ c atrv).1]
        rw [hpk1, hpk, hcount]

/-- Over a run whose flag goes from set to clear, some step drops the flag. -/
theorem run_flag_drop (l : List Candle) : ∀ (d dB : DoubleTopDetector),
    d.runCandles l = .ok dB →
    d.early_warning_sent = true → dB.early_warning_sent = false →
    ∃ la ck lb dpre dpost out,
      l = la ++ ck :: lb ∧ d.runCandles la = .ok dpre ∧
      dpre.process_candle ck = .ok (dpost, out) ∧
      dpre.early_warning_sent = true ∧ dpost.early_warning_sent = false := by
  induction l with
  | nil =>
    intro d dB hrun htrue hfalse
    simp only [DoubleTopDetector.runCandles, Except.ok.injEq] at hrun
    rw [hrun] at htrue
    rw [htrue] at hfalse
    exact Bool.noConfusion hfalse
  | cons c cs ih =>
    intro d dB hrun htrue hfalse
    simp only [DoubleTopDetector.runCandles] at hrun
    split at hrun
    · exact Except.noConfusion hrun
    · rename_i res dm out hstep
      by_cases hflag : dm.early_warning_sent = true
      · obtain ⟨la, ck, lb, dpre, dpost, out', hsplit, hr1, hstep', hp1, hp2⟩ :=
          ih dm dB hrun hflag hfalse
        exact ⟨c :: la, ck, lb, dpre, dpost, out', by simp [hsplit],
          by simp only [DoubleTopDetector.runCandles, hstep]; exact hr1, hstep', hp1, hp2⟩
      · exact ⟨[], c, cs, d, dm, out, rfl, rfl, hstep, htrue,
          (Bool.not_eq_true dm.early_warning_sent) ▸ hflag⟩

/-- C4: over any run of a single detector, two EarlyWarning emissions are
always separated by a step that assigns a fresh `peak1` (a new pattern
instance): that step drops the one-shot early-warning flag from set to clear
and stamps `peak1` with its own candle counter — which is also exactly what
re-arms the early warning for the new instance. -/
theorem c4_early_warning_once_per_pattern (d0 : DoubleTopDetector)
    (l1 : List Candle) (c1 : Candle) (l2 : List Candle) (c2 : Candle)
    (dA dA' dB dB' : DoubleTopDetector) (cn1 cn2 : String) (pk1 cur1 pk2 cur2 : ℚ)
    (h1 : d0.runCandles l1 = .ok dA)
    (h2 : dA.process_candle c1 = .ok (dA', some (.earlyWarning cn1 pk1 cur1)))
    (h3 : dA'.runCandles l2 = .ok dB)
    (h4 : dB.process_candle c2 = .ok (dB', some (.earlyWarning cn2 pk2 cur2))) :
    ∃ la ck lb dpre dpost out,
      l2 = la ++ ck :: lb ∧ dA'.runCandles la = .ok dpre ∧
      dpre.process_candle ck = .ok (dpost, out) ∧
      dpre.early_warning_sent = true ∧ dpost.early_warning_sent = false ∧
      ∃ pr, dpost.peak1 = some { price := pr, candle_idx := dpost.candle_count } := by
  have hA' : dA'.early_warning_sent = true := (ew_step_flags dA c1 dA' cn1 pk1 cur1 h2).2
  have hB : dB.early_warning_sent = false := (ew_step_flags dB c2 dB' cn2 pk2 cur2 h4).1
  obtain ⟨la, ck, lb, dpre, dpost, out, hsplit, hr1, hstep, hpre, hpost⟩ :=
    run_flag_drop l2 dA' dB h3 hA' hB
  exact ⟨la, ck, lb, dpre, dpost, out, hsplit, hr1, hstep, hpre, hpost,
    flag_drop_step dpre ck dpost out hstep hpre hpost⟩

/-- C4 witness: the 23-candle scenario run: EarlyWarnings fire at candles 10
and 17, and the theorem locates the fresh-pattern step between them (the
reset at candle 13 after the invalidation at candle 11). -/
theorem c4_early_warning_once_per_pattern_witness :
    wD0.runCandles wL1 = .ok wDA ∧
    wDA.process_candle wC10 = .ok (wDA', some (.earlyWarning "BTC" 102 99)) ∧
    wDA'.runCandles wL2 = .ok wDB ∧
    wDB.process_candle wC17 = .ok (wDB', some (.earlyWarning "BTC" 154 152)) ∧
    ∃ la ck lb dpre dpost out,
      wL2 = la ++ ck :: lb ∧ wDA'.runCandles la = .ok dpre ∧
      dpre.process_candle ck = .ok (dpost, out) ∧
      dpre.early_warning_sent = true ∧ dpost.early_warning_sent = false ∧
      ∃ pr, dpost.peak1 = some { price := pr, candle_idx := dpost.candle_count } :=
  ⟨by with_unfolding_all rfl, by with_unfolding_all rfl, by with_unfolding_all rfl,
    by with_unfolding_all rfl,
    c4_early_warning_once_per_pattern wD0 wL1 wC10 wL2 wC17 wDA wDA' wDB wDB'
      "BTC" "BTC" 102 99 154 152
      (by with_unfolding_all rfl) (by with_unfolding_all rfl)
      (by with_unfolding_all rfl) (by with_unfolding_all rfl)⟩

theorem alookup_aset_self {β : Type} (k : String) (v : β) (l : List (String × β)) :
    alookup k (aset k v l) = some v := by
  induction l with
  | nil => simp [aset, alookup]
  | cons p rest ih =>
    obtain ⟨k', v'⟩ := p
    by_cases h : k' = k
    · simp [aset, alookup, h]
    · simp only [aset, if_neg h, alookup]
      exact ih

theorem alookup_aset_other {β : Type} (k k' : String) (v : β) (l : List (String × β))
    (h : k' ≠ k) : alookup k' (aset k v l) = alookup k' l := by
  induction l with
  | nil =>
    simp only [aset, alookup]
    rw [if_neg (fun hh => h hh.symm)]
  | cons p rest ih =>
    obtain ⟨k0, v0⟩ := p
    by_cases h0 : k0 = k
    · simp only [aset, if_pos h0, alookup]
      rw [if_neg (fun hh => h hh.symm), h0, if_neg (fun hh => h hh.symm)]
    · simp only [aset, if_neg h0, alookup]
      by_cases h1 : k0 = k'
      · rw [if_pos h1, if_pos h1]
      · rw [if_neg h1, if_neg h1]
        exact ih

/-- A failed fetch leaves the whole service state untouched (the `Err` from
`process_coin` is caught and logged by the cycle loop). -/
theorem process_coin_fetch_error (s : MonitorService)
    (fetch : String → Except String (List Candle)) (now : ℕ) (coin : String) (e : String)
    (hf : fetch coin = .error e) : s.process_coin fetch now coin = .ok s := by
  rw [MonitorService.process_coin, hf]

/-- `process_coin` touches no entry of any other coin. -/
theorem process_coin_other (s s' : MonitorService)
    (fetch : String → Except String (List Candle)) (now : ℕ) (coin : String)
    (hp : s.process_coin fetch now coin = .ok s') (b : String) (hb : b ≠ coin) :
    alookup b s'.detectors = alookup b s.detectors ∧
    alookup b s'.last_candle_time = alookup b s.last_candle_time := by
  simp only [MonitorService.process_coin] at hp
  split at hp
  · injection hp with h
    rw [← h]
    exact ⟨rfl, rfl⟩
  · split at hp
    · injection hp with h
      rw [← h]
      exact ⟨rfl, rfl⟩
    · split at hp
      · exact Except.noConfusion hp
      · rename_i d' w hfeed
        injection hp with h
        rw [← h]
        refine ⟨alookup_aset_other coin b d' s.detectors hb, ?_⟩
        cases w with
        | none => rfl
        | some t => exact alookup_aset_other coin b t s.last_candle_time hb

/-- Successful per-coin processing: the coin's detector becomes the fed
detector and its watermark becomes the last fed close time (unchanged when no
candle qualified). -/
theorem process_coin_self (s : MonitorService)
    (fetch : String → Except String (List Candle)) (now : ℕ) (coin : String)
    (cs : List Candle) (dd d' : DoubleTopDetector) (w : Option ℕ) (s' : MonitorService)
    (hf : fetch coin = .ok cs)
    (hd : alookup coin s.detectors = some dd)
    (hfeed : MonitorService.feedCandles dd ((alookup coin s.last_candle_time).getD 0) now cs =
      .ok (d', w))
    (hp : s.process_coin fetch now coin = .ok s') :
    alookup coin s'.detectors = some d' ∧
    alookup coin s'.last_candle_time =
      w.elim (alookup coin s.last_candle_time) some := by
  simp only [MonitorService.process_coin, hf, hd, hfeed] at hp
  injection hp with h
  rw [← h]
  refine ⟨alookup_aset_self coin d' s.detectors, ?_⟩
  cases w with
  | none => rfl
  | some t => exact alookup_aset_self coin t s.last_candle_time

/-- The watermark produced by `feedCandles` is a left fold over the candles:
each qualifying candle (closed and strictly newer than the watermark read at
loop start) overwrites the accumulator with its close time. -/
theorem feed_wm (now lt : ℕ) (cs : List Candle) : ∀ (d d' : DoubleTopDetector)
    (w : Option ℕ),
    MonitorService.feedCandles d lt now cs = .ok (d', w) →
    ∀ acc : Option ℕ,
      w.elim acc some =
      cs.foldl (fun a c => if c.close_time ≤ now - INTERVAL_MS ∧ c.close_time > lt
        then some c.close_time else a) acc := by
  induction cs with
  | nil =>
    intro d d' w hfeed acc
    simp only [MonitorService.feedCandles, Except.ok.injEq] at hfeed
    injection hfeed with h1 h2
    rw [← h2]
    rfl
  | cons c rest ih =>
    intro d d' w hfeed acc
    simp only [MonitorService.feedCandles] at hfeed
    by_cases hq : c.close_time ≤ now - INTERVAL_MS ∧ c.close_time > lt
    · rw [if_pos hq] at hfeed
      simp only [List.foldl_cons, if_pos hq]
      split at hfeed
      · exact Except.noConfusion hfeed
      · rename_i dm out hstep
        split at hfeed
        · exact Except.noConfusion hfeed
        · rename_i d'' w' hrest
          injection hfeed with h
          injection h with h1 h2
          have := ih dm d'' w' hrest (some c.close_time)
          rw [← h2, ← this]
          cases w' with
          | none => rfl
          | some t => rfl
    · rw [if_neg hq] at hfeed
      simp only [List.foldl_cons, if_neg hq]
      exact ih d d' w hfeed acc

/-- A coin whose fetch fails keeps its detector and watermark across a whole
cycle, no matter what happens to the other coins. -/
theorem runCycle_error_coin (fetch : String → Except String (List Candle)) (now : ℕ)
    (coins : List String) : ∀ (s s' : MonitorService) (a : String) (e : String),
    s.runCycle fetch now coins = .ok s' → fetch a = .error e →
    alookup a s'.detectors = alookup a s.detectors ∧
    alookup a s'.last_candle_time = alookup a s.last_candle_time := by
  induction coins with
  | nil =>
    intro s s' a e hrun hf
    simp only [MonitorService.runCycle, Except.ok.injEq] at hrun
    rw [hrun]
    exact ⟨rfl, rfl⟩
  | cons coin rest ih =>
    intro s s' a e hrun hf
    simp only [MonitorService.runCycle] at hrun
    split at hrun
    · exact Except.noConfusion hrun
    · rename_i s1 hp
      by_cases hc : coin = a
      · rw [hc, process_coin_fetch_error s fetch now a e hf] at hp
        injection hp with h
        rw [← h] at hrun
        exact ih s s' a e hrun hf
      · obtain ⟨h1, h2⟩ := process_coin_other s s1 fetch now coin hp a
          (fun hh => hc hh.symm)
        obtain ⟨h3, h4⟩ := ih s1 s' a e hrun hf
        exact ⟨h3.trans h1, h4.trans h2⟩

/-- A coin not visited by the cycle keeps its entries. -/
theorem runCycle_not_mem (fetch : String → Except String (List Candle)) (now : ℕ)
    (coins : List String) : ∀ (s s' : MonitorService) (a : String),
    a ∉ coins → s.runCycle fetch now coins = .ok s' →
    alookup a s'.detectors = alookup a s.detectors ∧
    alookup a s'.last_candle_time = alookup a s.last_candle_time := by
  induction coins with
  | nil =>
    intro s s' a _ hrun
    simp only [MonitorService.runCycle, Except.ok.injEq] at hrun
    rw [hrun]
    exact ⟨rfl, rfl⟩
  | cons coin rest ih =>
    intro s s' a hmem hrun
    simp only [MonitorService.runCycle] at hrun
    split at hrun
    · exact Except.noConfusion hrun
    · rename_i s1 hp
      have hne : a ≠ coin := fun hh => hmem (hh ▸ List.mem_cons_self coin rest)
      obtain ⟨h1, h2⟩ := process_coin_other s s1 fetch now coin hp a hne
      obtain ⟨h3, h4⟩ := ih s1 s' a (fun hh => hmem (List.mem_cons_of_mem coin hh)) hrun
      exact ⟨h3.trans h1, h4.trans h2⟩

/-- Per-coin characterization of a successful cycle: a visited coin with a
successful fetch ends with exactly the detector produced by feeding its own
candles, and the watermark determined by its own feed. -/
theorem runCycle_self (fetch : String → Except String (List Candle)) (now : ℕ)
    (coins : List String) : ∀ (s s' : MonitorService) (a : String) (cs : List Candle)
    (dd d' : DoubleTopDetector) (w : Option ℕ),
    coins.Nodup → a ∈ coins → fetch a = .ok cs →
    alookup a s.detectors = some dd →
    MonitorService.feedCandles dd ((alookup a s.last_candle_time).getD 0) now cs =
      .ok (d', w) →
    s.runCycle fetch now coins = .ok s' →
    alookup a s'.detectors = some d' ∧
    alookup a s'.last_candle_time =
      w.elim (alookup a s.last_candle_time) some := by
  induction coins with
  | nil =>
    intro s s' a cs dd d' w _ hmem _ _ _ _
    exact absurd hmem (List.not_mem_nil a)
  | cons coin rest ih =>
    intro s s' a cs dd d' w hnodup hmem hf hd hfeed hrun
    simp only [MonitorService.runCycle] at hrun
    split at hrun
    · exact Except.noConfusion hrun
    · rename_i s1 hp
      by_cases hc : coin = a
      · subst hc
        obtain ⟨h1, h2⟩ := process_coin_self s fetch now coin cs dd d' w s1 hf hd hfeed hp
        have hnm : coin ∉ rest := (List.nodup_cons.mp hnodup).1
        obtain ⟨h3, h4⟩ := runCycle_not_mem fetch now rest s1 s' coin hnm hrun
        refine ⟨h3.trans h1, h4.trans h2⟩
      · have hne : a ≠ coin := fun hh => hc hh.symm
        obtain ⟨h1, h2⟩ := process_coin_other s s1 fetch now coin hp a hne
        have hmem' : a ∈ rest := by
          rcases List.mem_cons.mp hmem with hh | hh
          · exact absurd hh.symm hc
          · exact hh
        have hd1 : alookup a s1.detectors = some dd := h1.trans hd
        have hfeed1 : MonitorService.feedCandles dd
            ((alookup a s1.last_candle_time).getD 0) now cs = .ok (d', w) := by
          rw [h2]
          exact hfeed
        obtain ⟨h3, h4⟩ := ih s1 s' a cs dd d' w (List.nodup_cons.mp hnodup).2 hmem' hf
          hd1 hfeed1 hrun
        refine ⟨h3, ?_⟩
        rw [h4, h2]

/-- C8: over one monitoring cycle, (i) a coin whose fetch fails keeps its
detector and watermark untouched (the error is caught per coin; the cycle
runs on); (ii) a coin not in the cycle is untouched; (iii) a visited coin
with a successful fetch ends with exactly the detector obtained by feeding
its own candles, and a watermark equal to the close time of the last closed
candle strictly newer than its old watermark (old value kept when none
qualified) — independent of every other coin's outcome. -/
theorem c8_cycle_error_isolation (s s' : MonitorService) (coins : List String)
    (fetch : String → Except String (List Candle)) (now : ℕ)
    (hrun : s.runCycle fetch now coins = .ok s') :
    (∀ a e, fetch a = .error e →
      alookup a s'.detectors = alookup a s.detectors ∧
      alookup a s'.last_candle_time = alookup a s.last_candle_time) ∧
    (∀ a, a ∉ coins →
      alookup a s'.detectors = alookup a s.detectors ∧
      alookup a s'.last_candle_time = alookup a s.last_candle_time) ∧
    (∀ (a : String) (cs : List Candle) (dd d' : DoubleTopDetector) (w : Option ℕ),
      coins.Nodup → a ∈ coins → fetch a = .ok cs →
      alookup a s.detectors = some dd →
      MonitorService.feedCandles dd ((alookup a s.last_candle_time).getD 0) now cs =
        .ok (d', w) →
      alookup a s'.detectors = some d' ∧
      alookup a s'.last_candle_time =
        cs.foldl (fun acc c => if c.close_time ≤ now - INTERVAL_MS ∧
            c.close_time > (alookup a s.last_candle_time).getD 0
          then some c.close_time else acc) (alookup a s.last_candle_time)) := by
  refine ⟨fun a e hf => runCycle_error_coin fetch now coins s s' a e hrun hf,
    fun a hnm => runCycle_not_mem fetch now coins s s' a hnm hrun,
    fun a cs dd d' w hnd hm hf hd hfeed => ?_⟩
  obtain ⟨h1, h2⟩ := runCycle_self fetch now coins s s' a cs dd d' w hnd hm hf hd hfeed hrun
  refine ⟨h1, ?_⟩
  rw [h2, feed_wm now ((alookup a s.last_candle_time).getD 0) cs dd d' w hfeed
    (alookup a s.last_candle_time)]

/-- C8 witness: two coins, coin A's fetch fails while coin B's succeeds with
one closed candle; after the cycle A's entries are untouched and B's
watermark is the candle's close time. -/
theorem c8_cycle_error_isolation_witness :
    wFetch "A" = .error "fetch failed" ∧
    (alookup "A" (getOk (wMS.runCycle wFetch wNow ["A", "B"]) wMS).detectors =
        alookup "A" wMS.detectors ∧
      alookup "A" (getOk (wMS.runCycle wFetch wNow ["A", "B"]) wMS).last_candle_time =
        alookup "A" wMS.last_candle_time) ∧
    alookup "B" (getOk (wMS.runCycle wFetch wNow ["A", "B"]) wMS).last_candle_time =
      some 500000 := by
  refine ⟨rfl, ?_, ?_⟩
  · exact (c8_cycle_error_isolation wMS _ ["A", "B"] wFetch wNow
      (by with_unfolding_all rfl)).1 "A" "fetch failed" rfl
  · have h := (c8_cycle_error_isolation wMS
      (getOk (wMS.runCycle wFetch wNow ["A", "B"]) wMS) ["A", "B"] wFetch wNow
      (by with_unfolding_all rfl)).2.2 "B" [wCandleB] (DoubleTopDetector.new "B" wCfg)
      ((getOk (MonitorService.feedCandles (DoubleTopDetector.new "B" wCfg)
        ((alookup "B" wMS.last_candle_time).getD 0) wNow [wCandleB])
        (DoubleTopDetector.new "B" wCfg, none)).1)
      (some 500000) (by simp) (by simp) rfl rfl (by with_unfolding_all rfl)
    exact h.2.trans (by with_unfolding_all rfl)
